import Mathlib

/-!
# MedPlus front end: session, token decoding and route guard

Shallow embedding of the authentication layer of `src/App.js`
(`AuthProvider`, `logout`, `loadUserFromToken`, the startup effect, `login`,
the context value and `PrivateRoute`), of the axios instance `api` with its
request interceptor, of the data fetches and the polling effect of the
dashboards, of the redirect after login and of the paginated admin lists.

Modelling conventions.

* The React state of `AuthProvider` (`user`, `token`, `loading`), the
  `localStorage` entry `medplus_token` and the list of toasts emitted so far
  are gathered in one record, `Session`; every callback is a function from
  `Session` to `Session`.  Successive `setX` calls of one callback are applied
  in program order, so the record after the call holds the last value set.
* `jwtDecode` comes from the external package `jwt-decode`; it is taken as a
  parameter `String → Option Claims`, where `none` stands for a thrown
  `InvalidTokenError`.
* `Date.now()` is the parameter `now` (milliseconds, an integer).
* A decoded payload is typed the way the backend issues it: `sub` a string,
  `roles` an array of strings, `userId` and `exp` integers, each of them
  possibly absent (`none`, JavaScript `undefined`).
-/

namespace MedPlus

/-! ## Data model -/

/-- Payload of a decoded token, as read by `loadUserFromToken`:
`decoded.sub`, `decoded.roles`, `decoded.userId`, `decoded.exp`. -/
structure Claims where
  sub : Option String
  roles : Option (List String)
  userId : Option Int
  exp : Option Int
deriving DecidableEq, Repr

/-- The object passed to `setUser`: `{ email, roles, id }`. -/
structure User where
  email : String
  roles : List String
  id : Option Int
deriving DecidableEq, Repr

/-- The four `react-toastify` levels used by the provider. -/
inductive ToastKind where
  | info
  | warn
  | success
  | error
deriving DecidableEq, Repr

/-- One user-visible notification. -/
structure Toast where
  kind : ToastKind
  message : String
deriving DecidableEq, Repr

/-- State owned by `AuthProvider`, together with the `medplus_token` entry of
`localStorage` (`storage`) and the toasts emitted so far. -/
structure Session where
  user : Option User
  token : Option String
  storage : Option String
  loading : Bool
  toasts : List Toast
deriving DecidableEq, Repr

/-- State at mount: `user = null`, `token = localStorage.getItem(...)`,
`loading = true`. -/
def initialSession (stored : Option String) : Session :=
  { user := none, token := stored, storage := stored, loading := true, toasts := [] }

/-! ## JavaScript truthiness on the values that occur -/

/-- Truthiness of a string-or-absent value: absent and the empty string are
falsy. -/
def truthyString : Option String → Bool
  | none => false
  | some t => t != ""

/-- Truthiness of an array-or-absent value: every array is truthy, the empty
one included. -/
def truthyRoles : Option (List String) → Bool
  | none => false
  | some _ => true

/-- The test `decoded.exp * 1000 < Date.now()`.  With `exp` absent the product
is `NaN` and the comparison is false. -/
def tokenExpired (exp : Option Int) (now : Int) : Bool :=
  match exp with
  | none => false
  | some e => decide (e * 1000 < now)

/-! ## Token decoding (`try` block of `loadUserFromToken`) -/

/-- What the `try` block throws: the decoder's own error, `"Token expirado."`
or `"Token inválido."`. -/
inductive DecodeError where
  | malformed
  | expired
  | invalid
deriving DecidableEq, Repr

deriving instance DecidableEq for Except

/-- Body of the `try` block of `loadUserFromToken`: the object handed to
`setUser`, or the error thrown. -/
def decodeToken (jwtDecode : String → Option Claims) (now : Int) (userToken : String) :
    Except DecodeError User :=
  match jwtDecode userToken with
  | none => .error .malformed
  | some decoded =>
    if tokenExpired decoded.exp now then .error .expired
    else
      match decoded.sub with
      | some sub =>
        if truthyString (some sub) && truthyRoles decoded.roles then
          .ok { email := sub, roles := decoded.roles.getD [], id := decoded.userId }
        else .error .invalid
      | none => .error .invalid

/-! ## Provider callbacks -/

/-- Callback `logout`: remove the stored token, `setToken(null)`,
`setUser(null)`, one info toast. -/
def logout (s : Session) : Session :=
  { s with
    storage := none
    token := none
    user := none
    toasts := s.toasts ++ [⟨ToastKind.info, "Sessão encerrada."⟩] }

/-- Callback `loadUserFromToken`. -/
def loadUserFromToken (jwtDecode : String → Option Claims) (now : Int)
    (userToken : Option String) (s : Session) : Session :=
  if !truthyString userToken then { s with user := none }
  else
    match decodeToken jwtDecode now (userToken.getD "") with
    | .ok u => { s with user := some u }
    | .error _ =>
      logout { s with
        toasts := s.toasts ++ [⟨ToastKind.warn, "Sessão expirada. Faça login novamente."⟩] }

/-- The effect on `[token, loadUserFromToken]`: decode the token held in state
when there is one, then `setLoading(false)`. -/
def startupEffect (jwtDecode : String → Option Claims) (now : Int) (s : Session) : Session :=
  let s1 := if truthyString s.token then loadUserFromToken jwtDecode now s.token s else s
  { s1 with loading := false }

/-- Outcome of `api.post("/auth/login", ...)`: a response whose `data.token`
is a string or is missing, or a rejection carrying the optional
`error.response.data.message`. -/
inductive LoginResponse where
  | ok (token : Option String)
  | failed (message : Option String)
deriving DecidableEq, Repr

/-- `localStorage.setItem` stringifies its value: a missing token is stored as
the text `undefined`. -/
def storedText (newToken : Option String) : String :=
  newToken.getD "undefined"

/-- Toast text of the `catch` branch of `login`:
`error.response?.data?.message || "Erro ao realizar login."`. -/
def loginErrorText (message : Option String) : String :=
  if truthyString message then message.getD "" else "Erro ao realizar login."

/-- Callback `login`: the session afterwards and what the caller gets, the
returned `{ token }` or the re-thrown error. -/
def login (jwtDecode : String → Option Claims) (now : Int) (resp : LoginResponse)
    (s : Session) : Session × Except (Option String) (Option String) :=
  match resp with
  | .ok newToken =>
    let s1 := { s with storage := some (storedText newToken) }
    let s2 := { s1 with token := newToken }
    let s3 := loadUserFromToken jwtDecode now newToken s2
    let s4 := { s3 with
      toasts := s3.toasts ++ [⟨ToastKind.success, "Login realizado com sucesso!"⟩] }
    (s4, .ok newToken)
  | .failed message =>
    let s1 := logout s
    ({ s1 with toasts := s1.toasts ++ [⟨ToastKind.error, loginErrorText message⟩] },
      .error message)

/-! ## Context value and route guard -/

/-- The object given to `AuthContext.Provider`.  The flags computed with
`user?.roles.includes(...)` are `undefined` (`none`) when there is no user. -/
structure AuthContextValue where
  user : Option User
  token : Option String
  isAuthenticated : Bool
  isAdmin : Option Bool
  isPaciente : Option Bool
  isMedico : Option Bool
deriving DecidableEq, Repr

/-- The `value` of the provider for a given session. -/
def contextValue (s : Session) : AuthContextValue :=
  { user := s.user
    token := s.token
    isAuthenticated := s.user.isSome
    isAdmin := s.user.map (fun u => u.roles.contains "ADMIN")
    isPaciente := s.user.map (fun u => u.roles.contains "PACIENTE")
    isMedico := s.user.map (fun u => u.roles.contains "MEDICO") }

/-- The key `loading` that `PrivateRoute` destructures from the context: the
provider's value has no such key, so the result is `undefined`. -/
def AuthContextValue.loading (_ctx : AuthContextValue) : Option Bool :=
  none

/-- What `AuthProvider` renders: the loading indicator while `loading`,
otherwise its children under the context value. -/
def AuthProvider (s : Session) : Option AuthContextValue :=
  if s.loading then none else some (contextValue s)

/-- What `PrivateRoute` returns. -/
inductive RouteResult where
  | loader
  | navigate (target : String)
  | children
deriving DecidableEq, Repr

/-- The expression `user?.roles.includes(role)`, `undefined` read as false. -/
def userHasRole (user : Option User) (role : String) : Bool :=
  match user with
  | none => false
  | some u => u.roles.contains role

/-- Component `PrivateRoute`, with `roles` the required role list
(default `[]`). -/
def PrivateRoute (ctx : AuthContextValue) (roles : List String) : RouteResult :=
  if ctx.loading.getD false then .loader
  else if !ctx.isAuthenticated then .navigate "/login"
  else if decide (roles.length > 0) && !roles.any (fun role => userHasRole ctx.user role) then
    .navigate "/nao-autorizado"
  else .children

/-- Roles carried by the identity of a context value: those of the user, and
none when there is no user. -/
def identityRoles (ctx : AuthContextValue) : List String :=
  match ctx.user with
  | none => []
  | some u => u.roles

/-! ## The session as a state machine -/

/-- Events that drive the provider: a run of the effect, a call of `login`
with the outcome of its request, a call of `logout`. -/
inductive Event where
  | effect (now : Int)
  | login (now : Int) (resp : LoginResponse)
  | logout
deriving DecidableEq, Repr

/-- One transition of the session. -/
def step (jwtDecode : String → Option Claims) (s : Session) : Event → Session
  | .effect now => startupEffect jwtDecode now s
  | .login now resp => (login jwtDecode now resp s).1
  | .logout => logout s

/-- The session after a sequence of events. -/
def run (jwtDecode : String → Option Claims) (s : Session) (evs : List Event) : Session :=
  evs.foldl (step jwtDecode) s

/-- Clock value read by an event, when it reads one. -/
def Event.clock : Event → Option Int
  | .effect now => some now
  | .login now _ => some now
  | .logout => none

/-- The credential an event submits to `loadUserFromToken` from state `s`,
when it submits one. -/
def Event.submitted (s : Session) : Event → Option String
  | .effect _ => if truthyString s.token then s.token else none
  | .login _ (.ok newToken) => if truthyString newToken then newToken else none
  | .login _ (.failed _) => none
  | .logout => none

/-- Inductive invariant of the session, relative to the clock values read so
far: a truthy token held in state is the stored one, and a user that is set is
the decode of the stored token at one of those clock values. -/
def SessionInv (jwtDecode : String → Option Claims) (clocks : List Int) (s : Session) : Prop :=
  (∀ t, s.token = some t → t ≠ "" → s.storage = some t) ∧
    (∀ u, s.user = some u →
      ∃ t, s.storage = some t ∧ s.token = some t ∧
        ∃ now ∈ clocks, decodeToken jwtDecode now t = .ok u)

/-! ## Request gateway -/

/-- An axios request config, with the fields the call sites and the
interceptor touch; `headers` is the property map of the headers object and
holds the headers set by the call site and by interceptors.  The headers axios
adds on its own to every request of every instance (its default `Accept`) are
not represented. -/
structure RequestConfig where
  method : String
  url : String
  baseURL : Option String
  data : Option String
  headers : List (String × String)
deriving DecidableEq, Repr

/-- Property read `headers[name]`. -/
def getHeader (headers : List (String × String)) (name : String) : Option String :=
  match headers with
  | [] => none
  | (k, v) :: rest => if k = name then some v else getHeader rest name

/-- Property write `headers[name] = value`. -/
def setHeader (headers : List (String × String)) (name value : String) :
    List (String × String) :=
  match headers with
  | [] => [(name, value)]
  | (k, v) :: rest =>
    if k = name then (name, value) :: rest else (k, v) :: setHeader rest name value

/-- The request interceptor registered on the instance.  `storage` is what
`localStorage.getItem("medplus_token")` returns when the interceptor runs. -/
def requestInterceptor (storage : Option String) (config : RequestConfig) : RequestConfig :=
  let tokenFromStorage := storage
  if truthyString tokenFromStorage then
    { config with
      headers := setHeader config.headers "Authorization"
        ("Bearer " ++ tokenFromStorage.getD "") }
  else config

/-- An axios instance: its default base URL and its request interceptor, a
function of the storage content at the time of the request. -/
structure AxiosInstance where
  baseURL : Option String
  intercept : Option String → RequestConfig → RequestConfig

/-- The instance built once by `useMemo(..., [])` in `AuthProvider`. -/
def api : AxiosInstance :=
  { baseURL := some "http://localhost:8080", intercept := requestInterceptor }

/-- The default export of the `axios` package, as imported by `App.js`: the
file sets no default base URL and registers no interceptor on it. -/
def axios : AxiosInstance :=
  { baseURL := none, intercept := fun _ config => config }

/-- The config that leaves an instance: instance defaults are merged under the
call's own config, then the request interceptor runs. -/
def AxiosInstance.request (inst : AxiosInstance) (storage : Option String)
    (config : RequestConfig) : RequestConfig :=
  inst.intercept storage
    { config with baseURL := if config.baseURL.isSome then config.baseURL else inst.baseURL }

/-- Call `inst.get(url)`. -/
def AxiosInstance.get (inst : AxiosInstance) (storage : Option String) (url : String) :
    RequestConfig :=
  inst.request storage { method := "get", url := url, baseURL := none, data := none, headers := [] }

/-! ## Dashboards -/

/-- Outcome of an awaited request: the response data, or a rejection with the
HTTP status when the server answered. -/
inductive ApiResponse where
  | ok (data : String)
  | failed (status : Option Nat)
deriving DecidableEq, Repr

/-- State of `MedicoDashboardPage`. -/
structure MedicoDashboard where
  dashboardData : Option String
  loadingInitial : Bool
  isRefreshing : Bool
deriving DecidableEq, Repr

/-- State of `MedicoDashboardPage` at mount. -/
def initialMedicoDashboard : MedicoDashboard :=
  { dashboardData := none, loadingInitial := true, isRefreshing := false }

/-- The request `fetchDashboardData` sends: `api.get("/medicos/dashboard")`. -/
def fetchDashboardDataRequest (storage : Option String) : RequestConfig :=
  api.get storage "/medicos/dashboard"

/-- Part of `fetchDashboardData` before the `await`: raise the flag of the
mode. -/
def fetchDashboardDataBegin (isBackgroundRefresh : Bool) (d : MedicoDashboard) :
    MedicoDashboard :=
  if !isBackgroundRefresh then { d with loadingInitial := true }
  else { d with isRefreshing := true }

/-- Part of `fetchDashboardData` after the `await`: store the data or, in the
`catch`, emit the error toast; then the `finally` lowers both flags. -/
def fetchDashboardDataSettle (resp : ApiResponse) (s : Session) (d : MedicoDashboard) :
    Session × MedicoDashboard :=
  match resp with
  | .ok data =>
    (s, { d with dashboardData := some data, loadingInitial := false, isRefreshing := false })
  | .failed _ =>
    ({ s with
        toasts := s.toasts ++
          [⟨ToastKind.error, "Não foi possível carregar os dados do dashboard."⟩] },
      { d with loadingInitial := false, isRefreshing := false })

/-- Callback `fetchDashboardData` run to completion with the outcome `resp` of
its request. -/
def fetchDashboardData (isBackgroundRefresh : Bool) (resp : ApiResponse) (s : Session)
    (d : MedicoDashboard) : Session × MedicoDashboard :=
  if s.user.isNone then (s, d)
  else fetchDashboardDataSettle resp s (fetchDashboardDataBegin isBackgroundRefresh d)

/-- The request `fetchStats` of `AdminDashboardPage` sends:
`axios.get("/api/admin/dashboard")`, on the package's default instance; as in
every `RequestConfig`, the default headers of axios itself are left out. -/
def fetchStatsRequest (storage : Option String) : RequestConfig :=
  axios.get storage "/api/admin/dashboard"

/-! ## Polling effect of the doctor dashboard -/

/-- A timer registered with `setInterval`: its id, its delay in milliseconds
and the argument its callback passes to `fetchDashboardData`. -/
structure Interval where
  id : Nat
  delay : Nat
  isBackgroundRefresh : Bool
deriving DecidableEq, Repr

/-- Timers of the page: the next id `setInterval` hands out, the intervals
still active, the interval captured by the cleanup returned by the last effect
run, and the arguments of the calls of `fetchDashboardData` made so far. -/
structure Polling where
  nextId : Nat
  intervals : List Interval
  cleanup : Option Nat
  calls : List Bool
deriving DecidableEq, Repr

/-- Before the page mounts. -/
def initialPolling : Polling :=
  { nextId := 0, intervals := [], cleanup := none, calls := [] }

/-- Body of the polling effect: `fetchDashboardData(false)`, then `setInterval`
with delay `5 * 60 * 1000` and callback `fetchDashboardData(true)`; the cleanup
it returns holds the new interval. -/
def pollingEffect (p : Polling) : Polling :=
  { nextId := p.nextId + 1
    intervals := p.intervals ++ [⟨p.nextId, 5 * 60 * 1000, true⟩]
    cleanup := some p.nextId
    calls := p.calls ++ [false] }

/-- The cleanup of the last effect run: `clearInterval(interval)`. -/
def pollingCleanup (p : Polling) : Polling :=
  match p.cleanup with
  | none => p
  | some id => { p with intervals := p.intervals.filter (fun i => i.id != id), cleanup := none }

/-- A tick of the timer `id`: its callback runs when the interval is still
active. -/
def pollingTick (id : Nat) (p : Polling) : Polling :=
  match p.intervals.find? (fun i => i.id == id) with
  | none => p
  | some i => { p with calls := p.calls ++ [i.isBackgroundRefresh] }

/-- What happens to a mounted page: the effect runs again after a change of
`fetchDashboardData` (cleanup first, then the body), or a timer fires. -/
inductive PollingEvent where
  | rerun
  | tick (id : Nat)
deriving DecidableEq, Repr

/-- One event on a mounted page. -/
def pollingStep (p : Polling) : PollingEvent → Polling
  | .rerun => pollingEffect (pollingCleanup p)
  | .tick id => pollingTick id p

/-- The timers after mount followed by a sequence of events. -/
def pollingRun (evs : List PollingEvent) : Polling :=
  evs.foldl pollingStep (pollingEffect initialPolling)

/-! ## Post-login redirect and dashboard link -/

/-- `getDashboardLink` of `Navbar`. -/
def getDashboardLink (user : Option User) : String :=
  if userHasRole user "ROLE_ADMIN" then "/admin/dashboard"
  else if userHasRole user "ROLE_MEDICO" then "/medico/dashboard"
  else if userHasRole user "ROLE_PACIENTE" then "/paciente/dashboard"
  else "/"

/-- What `handleSubmit` of `LoginPage` ends with: a navigation, the notice
that no token was obtained, or the notice of the `catch` branch. -/
inductive SubmitOutcome where
  | navigate (target : String)
  | noToken
  | failed
deriving DecidableEq, Repr

/-- `handleSubmit` of `LoginPage`, given what `login` returned or threw and the
path `fromPath` the user came from. -/
def handleSubmit (jwtDecode : String → Option Claims)
    (loginResult : Except (Option String) (Option String)) (fromPath : String) :
    SubmitOutcome :=
  match loginResult with
  | .error _ => .failed
  | .ok token =>
    if truthyString token then
      match jwtDecode (token.getD "") with
      | none => .failed
      | some decodedToken =>
        let roles := decodedToken.roles.getD []
        if roles.contains "ROLE_ADMIN" then .navigate "/admin/dashboard"
        else if roles.contains "ROLE_MEDICO" then .navigate "/medico/dashboard"
        else if roles.contains "ROLE_PACIENTE" then .navigate "/paciente/dashboard"
        else .navigate fromPath
    else .noToken

/-! ## Admin lists and their pagination -/

/-- `Array.prototype.slice(start, stop)`: a negative index counts from the
end, both indices are clamped to the length. -/
def jsSlice {α : Type} (l : List α) (start stop : Int) : List α :=
  let len : Int := l.length
  let k := if start < 0 then max (len + start) 0 else min start len
  let f := if stop < 0 then max (len + stop) 0 else min stop len
  (l.drop k.toNat).take (f - k).toNat

/-- The constants `usersPerPage` and `consultasPerPage`. -/
def usersPerPage : Nat := 5

/-- `Math.ceil(length / perPage)`, on list lengths. -/
def totalPages (length perPage : Nat) : Nat :=
  (length + (perPage - 1)) / perPage

/-- The page shown:
`filtered.slice((currentPage - 1) * perPage, currentPage * perPage)`. -/
def paginated {α : Type} (filtered : List α) (currentPage perPage : Nat) : List α :=
  jsSlice filtered (((currentPage : Int) - 1) * perPage) ((currentPage : Int) * perPage)

/-- A row of the admin user list, with the fields the page reads. -/
structure AdminUser where
  id : Nat
  nome : String
  email : String
deriving DecidableEq, Repr

/-- `String.prototype.includes`: `term` occurs in `text`. -/
def jsIncludes (text term : String) : Bool :=
  decide (term.data <:+: text.data)

/-- State of `AdminGerenciarUsuariosPage`; `confirmUserId` is the `userId` of
`confirmModal`, which is open exactly when an id is held. -/
structure AdminUsersPage where
  activeTab : String
  users : List AdminUser
  filteredUsers : List AdminUser
  searchTerm : String
  loading : Bool
  error : String
  confirmUserId : Option Nat
  currentPage : Nat
deriving DecidableEq, Repr

/-- State of the page at mount. -/
def initialAdminUsersPage : AdminUsersPage :=
  { activeTab := "pacientes", users := [], filteredUsers := [], searchTerm := "",
    loading := true, error := "", confirmUserId := none, currentPage := 1 }

/-- Lower case of one character, on the capital letters of Basic Latin (`A`
to `Z`) and of Latin-1 (`À` to `Þ`, the sign `×` apart), which cover
Portuguese; every other character is returned as it is. -/
def jsLowerChar (c : Char) : Char :=
  if (65 ≤ c.toNat ∧ c.toNat ≤ 90) ∨ (192 ≤ c.toNat ∧ c.toNat ≤ 222 ∧ c.toNat ≠ 215) then
    Char.ofNat (c.toNat + 32)
  else c

/-- `String.prototype.toLowerCase`, character by character with `jsLowerChar`:
exact on Basic Latin and Latin-1 text, while capitals of other scripts, which
the runtime also lowers, are left unchanged here. -/
def jsToLowerCase (text : String) : String :=
  String.mk (text.data.map jsLowerChar)

/-- The effect on `[searchTerm, users]`: recompute `filteredUsers`. -/
def filterEffect (st : AdminUsersPage) : AdminUsersPage :=
  let term := jsToLowerCase st.searchTerm
  { st with
    filteredUsers := st.users.filter
      (fun user =>
        jsIncludes (jsToLowerCase user.nome) term ||
          jsIncludes (jsToLowerCase user.email) term) }

/-- `fetchUsers` run to completion, `none` standing for a failed request,
followed by the filter effect its state change triggers. -/
def fetchUsers (resp : Option (List AdminUser)) (st : AdminUsersPage) : AdminUsersPage :=
  match resp with
  | some data =>
    filterEffect { st with error := "", users := data, currentPage := 1, loading := false }
  | none =>
    { st with error := "Falha ao carregar lista de " ++ st.activeTab ++ ".", loading := false }

/-- Click on the trash button of a row: `setConfirmModal({ open: true, userId })`. -/
def openConfirm (userId : Nat) (st : AdminUsersPage) : AdminUsersPage :=
  { st with confirmUserId := some userId }

/-- `handleDelete` run to completion, `deleted` telling whether the request
succeeded, followed by the filter effect its state change triggers. -/
def handleDelete (deleted : Bool) (st : AdminUsersPage) : AdminUsersPage :=
  let userId := st.confirmUserId
  if deleted then
    filterEffect { st with
      users := st.users.filter (fun u => some u.id != userId)
      confirmUserId := none }
  else
    { st with
      error := "Erro ao excluir usuário. Verifique se ele possui dados associados." }

/-- Typing in the search box: `setSearchTerm`, followed by the filter effect. -/
def changeSearchTerm (term : String) (st : AdminUsersPage) : AdminUsersPage :=
  filterEffect { st with searchTerm := term }

/-- `onPageChange` of the pagination widget: `setCurrentPage(activePage)`. -/
def onPageChange (activePage : Nat) (st : AdminUsersPage) : AdminUsersPage :=
  { st with currentPage := activePage }

/-- The value `totalPages` computed by a render of the page. -/
def AdminUsersPage.totalPages (st : AdminUsersPage) : Nat :=
  MedPlus.totalPages st.filteredUsers.length usersPerPage

/-- The value `paginatedUsers` computed by a render of the page. -/
def AdminUsersPage.paginatedUsers (st : AdminUsersPage) : List AdminUser :=
  paginated st.filteredUsers st.currentPage usersPerPage

/-! ## Sample data used to evaluate the definitions -/

/-- A decoder defined on four token texts. -/
def sampleDecode (t : String) : Option Claims :=
  if t = "valid" then
    some { sub := some "a@b.com", roles := some ["ROLE_PACIENTE"], userId := some 7,
           exp := some 2000 }
  else if t = "noroles" then
    some { sub := some "a@b.com", roles := none, userId := some 7, exp := some 2000 }
  else if t = "empty" then
    some { sub := none, roles := none, userId := none, exp := some 2000 }
  else if t = "old" then
    some { sub := some "a@b.com", roles := some ["ROLE_ADMIN"], userId := some 1,
           exp := some 1 }
  else none

/-- A decoder whose only token, `noexp`, has a payload without `exp`. -/
def sampleDecodeNoExp (t : String) : Option Claims :=
  if t = "noexp" then
    some { sub := some "a@b.com", roles := some ["ROLE_MEDICO"], userId := some 2, exp := none }
  else none

/-- A decoder whose only token, `two`, carries the roles `ROLE_PACIENTE` and
`ROLE_MEDICO`, in this order. -/
def sampleDecodeTwoRoles (t : String) : Option Claims :=
  if t = "two" then
    some { sub := some "a@b.com", roles := some ["ROLE_PACIENTE", "ROLE_MEDICO"],
           userId := some 2, exp := some 2000 }
  else none

/-- Six rows of the admin user list. -/
def sampleUsers : List AdminUser :=
  [⟨1, "Ana", "ana@x.com"⟩, ⟨2, "Bruno", "bruno@x.com"⟩, ⟨3, "Carla", "carla@x.com"⟩,
    ⟨4, "Davi", "davi@x.com"⟩, ⟨5, "Eva", "eva@x.com"⟩, ⟨6, "Fabio", "fabio@x.com"⟩]

/-- The admin user list after its six rows were fetched, page `2` was chosen
and the sixth row was deleted. -/
def sampleDeleted : AdminUsersPage :=
  handleDelete true (openConfirm 6 (onPageChange 2 (fetchUsers (some sampleUsers)
    initialAdminUsersPage)))

/-- A session holding an identity and a stored token. -/
def sampleSession : Session :=
  { user := some { email := "x@y.com", roles := ["ROLE_MEDICO"], id := some 3 }
    token := some "valid"
    storage := some "valid"
    loading := false
    toasts := [] }

/-! ## Lemmas on `loadUserFromToken` -/

theorem truthyString_some (t : String) : truthyString (some t) = true ↔ t ≠ "" := by
  simp [truthyString]

theorem loadUserFromToken_error (jwtDecode : String → Option Claims) (now : Int) (t : String)
    (s : Session) (err : DecodeError) (ht : t ≠ "")
    (hd : decodeToken jwtDecode now t = .error err) :
    loadUserFromToken jwtDecode now (some t) s =
      logout { s with
        toasts := s.toasts ++ [⟨ToastKind.warn, "Sessão expirada. Faça login novamente."⟩] } := by
  simp [loadUserFromToken, truthyString, ht, hd]

theorem loadUserFromToken_ok (jwtDecode : String → Option Claims) (now : Int) (t : String)
    (s : Session) (u : User) (ht : t ≠ "")
    (hd : decodeToken jwtDecode now t = .ok u) :
    loadUserFromToken jwtDecode now (some t) s = { s with user := some u } := by
  simp [loadUserFromToken, truthyString, ht, hd]

theorem loadUserFromToken_falsy (jwtDecode : String → Option Claims) (now : Int)
    (tok : Option String) (s : Session) (ht : truthyString tok = false) :
    loadUserFromToken jwtDecode now tok s = { s with user := none } := by
  simp [loadUserFromToken, ht]

/-- What an accepted token looks like: it decodes, is not expired, and carries
a non-empty `sub` and a `roles` array; the user object is built from these. -/
theorem decodeToken_ok_iff (jwtDecode : String → Option Claims) (now : Int) (t : String)
    (u : User) :
    decodeToken jwtDecode now t = .ok u ↔
      ∃ p sub roles, jwtDecode t = some p ∧ tokenExpired p.exp now = false ∧
        p.sub = some sub ∧ sub ≠ "" ∧ p.roles = some roles ∧
        u = { email := sub, roles := roles, id := p.userId } := by
  unfold decodeToken
  constructor
  · intro h
    cases hp : jwtDecode t with
    | none => simp [hp] at h
    | some p =>
      simp only [hp] at h
      cases hx : tokenExpired p.exp now with
      | true => simp [hx] at h
      | false =>
        simp only [hx] at h
        cases hs : p.sub with
        | none => simp [hs] at h
        | some sub =>
          cases hr : p.roles with
          | none => simp [hs, hr, truthyRoles] at h
          | some roles =>
            by_cases hne : sub = ""
            · simp [hs, hr, truthyString, hne] at h
            · simp [hs, hr, truthyString, truthyRoles, hne] at h
              exact ⟨p, sub, roles, rfl, hx, hs, hne, hr, h.symm⟩
  · rintro ⟨p, sub, roles, hp, hx, hs, hne, hr, rfl⟩
    simp [hp, hx, hs, hr, truthyString, truthyRoles, hne]

/-! ## Expired credentials -/

/-- C1: a credential that decodes and whose `exp` satisfies `exp * 1000 < now`
is rejected by `loadUserFromToken`, whatever its `sub`, `roles` and `userId`:
the `try` block throws the expiry error, the user ends `null`, the stored token
is removed and the token state is `null`. -/
theorem loadUserFromToken_rejects_expired (jwtDecode : String → Option Claims)
    (now e : Int) (t : String) (p : Claims) (s : Session)
    (ht : t ≠ "") (hd : jwtDecode t = some p) (he : p.exp = some e)
    (hlt : e * 1000 < now) :
    decodeToken jwtDecode now t = .error .expired ∧
      (loadUserFromToken jwtDecode now (some t) s).user = none ∧
      (loadUserFromToken jwtDecode now (some t) s).storage = none ∧
      (loadUserFromToken jwtDecode now (some t) s).token = none := by
  have hx : decodeToken jwtDecode now t = .error .expired := by
    simp [decodeToken, hd, he, tokenExpired, hlt]
  rw [loadUserFromToken_error jwtDecode now t s _ ht hx]
  exact ⟨hx, rfl, rfl, rfl⟩

/-- Witness of C1: the token `old` (`exp = 1`) presented at `now = 5000` to a
session that holds an identity. -/
theorem loadUserFromToken_rejects_expired_witness :
    ("old" ≠ "" ∧ (1 : Int) * 1000 < 5000) ∧
      (decodeToken sampleDecode 5000 "old" = .error .expired ∧
        (loadUserFromToken sampleDecode 5000 (some "old") sampleSession).user = none ∧
        (loadUserFromToken sampleDecode 5000 (some "old") sampleSession).storage = none ∧
        (loadUserFromToken sampleDecode 5000 (some "old") sampleSession).token = none) :=
  ⟨by decide,
    loadUserFromToken_rejects_expired sampleDecode 5000 1 "old"
      { sub := some "a@b.com", roles := some ["ROLE_ADMIN"], userId := some 1, exp := some 1 }
      sampleSession (by decide) (by decide) rfl (by decide)⟩

/-! ## Route guard -/

theorem any_userHasRole (user : Option User) (roles : List String) :
    roles.any (fun role => userHasRole user role) = true ↔
      ∃ u, user = some u ∧ ∃ r ∈ roles, r ∈ u.roles := by
  cases user with
  | none => simp [userHasRole]
  | some u => simp [userHasRole]

/-- C3: for a non-empty required role list, `PrivateRoute` renders its children
exactly when there is a user and one of the required roles is an element of the
user's roles; a user with no matching role is sent to `/nao-autorizado`; for
the requirement `["ROLE_ADMIN"]` the children are rendered exactly when
`"ROLE_ADMIN"` is among the identity's roles. -/
theorem PrivateRoute_requires_role (s : Session) (roles : List String) (hne : roles ≠ []) :
    (PrivateRoute (contextValue s) roles = .children ↔
        (contextValue s).isAuthenticated = true ∧
          ∃ r ∈ roles, r ∈ identityRoles (contextValue s)) ∧
      ((contextValue s).isAuthenticated = true →
        (∀ r ∈ roles, r ∉ identityRoles (contextValue s)) →
        PrivateRoute (contextValue s) roles = .navigate "/nao-autorizado") ∧
      (PrivateRoute (contextValue s) ["ROLE_ADMIN"] = .children ↔
        "ROLE_ADMIN" ∈ identityRoles (contextValue s)) := by
  have hlen : 0 < roles.length := List.length_pos.mpr hne
  cases hu : s.user with
  | none =>
    simp [PrivateRoute, contextValue, AuthContextValue.loading, identityRoles, hu]
  | some u =>
    have hany := any_userHasRole (some u) roles
    simp only [Option.some.injEq, exists_eq_left'] at hany
    refine ⟨?_, ?_, ?_⟩
    · by_cases hm : roles.any (fun role => userHasRole (some u) role) = true
      · have hex := hany.mp hm
        simp [PrivateRoute, contextValue, AuthContextValue.loading, identityRoles, hu, hm,
          hex]
      · have hex : ¬ ∃ r ∈ roles, r ∈ u.roles := fun h => hm (hany.mpr h)
        simp only [Bool.not_eq_true] at hm
        simp [PrivateRoute, contextValue, AuthContextValue.loading, identityRoles, hu, hm,
          hlen, hex]
    · intro _ hall
      have hm : roles.any (fun role => userHasRole (some u) role) = false := by
        rw [← Bool.not_eq_true]
        intro h
        obtain ⟨r, hr, hmem⟩ := hany.mp h
        exact hall r hr (by simpa [identityRoles, contextValue, hu] using hmem)
      simp [PrivateRoute, contextValue, AuthContextValue.loading, hu, hm, hlen]
    · by_cases hmem : "ROLE_ADMIN" ∈ u.roles
      · simp [PrivateRoute, contextValue, AuthContextValue.loading, identityRoles, hu,
          userHasRole, hmem]
      · simp [PrivateRoute, contextValue, AuthContextValue.loading, identityRoles, hu,
          userHasRole, hmem]

/-- Witness of C3: the requirement `["ROLE_ADMIN", "ROLE_MEDICO"]` checked
against the sample session, whose user holds `ROLE_MEDICO`. -/
theorem PrivateRoute_requires_role_witness :
    ["ROLE_ADMIN", "ROLE_MEDICO"] ≠ [] ∧
      PrivateRoute (contextValue sampleSession) ["ROLE_ADMIN", "ROLE_MEDICO"] = .children ∧
      PrivateRoute (contextValue sampleSession) ["ROLE_ADMIN"] ≠ .children :=
  ⟨by decide,
    ((PrivateRoute_requires_role sampleSession ["ROLE_ADMIN", "ROLE_MEDICO"]
      (by decide)).1).mpr (by decide),
    fun h => absurd (((PrivateRoute_requires_role sampleSession ["ROLE_ADMIN", "ROLE_MEDICO"]
      (by decide)).2.2).mp h) (by decide)⟩

/-- C4: with no user, `PrivateRoute` redirects to `/login` and does not render
its children, for every required role list, empty or not. -/
theorem PrivateRoute_unauthenticated (s : Session) (roles : List String)
    (hu : s.user = none) :
    (contextValue s).isAuthenticated = false ∧
      PrivateRoute (contextValue s) roles = .navigate "/login" ∧
      PrivateRoute (contextValue s) roles ≠ .children := by
  simp [PrivateRoute, contextValue, AuthContextValue.loading, hu]

/-- Witness of C4: the session right after mount, with no stored token, and
the requirement `["ROLE_ADMIN"]`. -/
theorem PrivateRoute_unauthenticated_witness :
    (initialSession none).user = none ∧
      PrivateRoute (contextValue (initialSession none)) ["ROLE_ADMIN"] = .navigate "/login" :=
  ⟨rfl, (PrivateRoute_unauthenticated (initialSession none) ["ROLE_ADMIN"] rfl).2.1⟩

/-- C5: with the empty required role list (the default, used by `/perfil`),
`PrivateRoute` renders its children exactly when the identity is
authenticated. -/
theorem PrivateRoute_no_roles (s : Session) :
    PrivateRoute (contextValue s) [] = .children ↔ (contextValue s).isAuthenticated = true := by
  cases hu : s.user <;> simp [PrivateRoute, contextValue, AuthContextValue.loading, hu]

/-- C6: role matching is exact and flat: a user whose role list does not have
`r` as an element is denied the requirement `[r]`, whatever other roles the
list holds. -/
theorem PrivateRoute_exact_match (s : Session) (u : User) (r : String)
    (hu : s.user = some u) (hr : r ∉ u.roles) :
    PrivateRoute (contextValue s) [r] = .navigate "/nao-autorizado" := by
  simp [PrivateRoute, contextValue, AuthContextValue.loading, hu, userHasRole, hr]

/-- Witness of C6: a user holding `ROLE_ADMIN` and `ROLE_MEDICO_CHEFE` is
denied the requirement `["ROLE_MEDICO"]`. -/
theorem PrivateRoute_exact_match_witness :
    "ROLE_MEDICO" ∉ ["ROLE_ADMIN", "ROLE_MEDICO_CHEFE"] ∧
      PrivateRoute
        (contextValue
          { sampleSession with
            user := some { email := "x@y.com", roles := ["ROLE_ADMIN", "ROLE_MEDICO_CHEFE"],
                           id := some 3 } })
        ["ROLE_MEDICO"] = .navigate "/nao-autorizado" ∧
      PrivateRoute
        (contextValue
          { sampleSession with
            user := some { email := "x@y.com", roles := ["ROLE_ADMIN"], id := some 3 } })
        ["ROLE_MEDICO"] = .navigate "/nao-autorizado" :=
  ⟨by decide,
    PrivateRoute_exact_match _
      { email := "x@y.com", roles := ["ROLE_ADMIN", "ROLE_MEDICO_CHEFE"], id := some 3 }
      "ROLE_MEDICO" rfl (by decide),
    PrivateRoute_exact_match _
      { email := "x@y.com", roles := ["ROLE_ADMIN"], id := some 3 }
      "ROLE_MEDICO" rfl (by decide)⟩

/-! ## Required fields -/

/-- C7: a credential that decodes, is not expired and has neither `sub` nor
`roles` is rejected by `loadUserFromToken`: the `try` block throws the
invalid-token error, no user is set, the stored token is removed and the token
state is `null`. -/
theorem loadUserFromToken_rejects_missing_fields (jwtDecode : String → Option Claims)
    (now : Int) (t : String) (p : Claims) (s : Session)
    (ht : t ≠ "") (hd : jwtDecode t = some p) (hx : tokenExpired p.exp now = false)
    (hsub : p.sub = none) (hroles : p.roles = none) :
    decodeToken jwtDecode now t = .error .invalid ∧
      (loadUserFromToken jwtDecode now (some t) s).user = none ∧
      (loadUserFromToken jwtDecode now (some t) s).storage = none ∧
      (loadUserFromToken jwtDecode now (some t) s).token = none := by
  have hinv : decodeToken jwtDecode now t = .error .invalid := by
    cases p with
    | mk sub roles userId exp =>
      cases hsub
      cases hroles
      simp [decodeToken, hd] at hx ⊢
      simp [hx]
  rw [loadUserFromToken_error jwtDecode now t s _ ht hinv]
  exact ⟨hinv, rfl, rfl, rfl⟩

/-- Witness of C7: the token `empty`, whose payload has only `exp = 2000`,
presented at `now = 1000`. -/
theorem loadUserFromToken_rejects_missing_fields_witness :
    ("empty" ≠ "" ∧ tokenExpired (some 2000) 1000 = false) ∧
      (decodeToken sampleDecode 1000 "empty" = .error .invalid ∧
        (loadUserFromToken sampleDecode 1000 (some "empty") sampleSession).user = none ∧
        (loadUserFromToken sampleDecode 1000 (some "empty") sampleSession).storage = none ∧
        (loadUserFromToken sampleDecode 1000 (some "empty") sampleSession).token = none) :=
  ⟨by decide,
    loadUserFromToken_rejects_missing_fields sampleDecode 1000 "empty"
      { sub := none, roles := none, userId := none, exp := some 2000 }
      sampleSession (by decide) (by decide) (by decide) rfl rfl⟩

/-- C8, as stated, fails: the token `noroles` decodes, is not expired at
`now = 1000` and carries a subject but no `roles`; decoding it does not yield
an identity with an empty role list, it throws. -/
theorem decodeToken_absent_roles_not_defaulted :
    ¬ (∀ (jwtDecode : String → Option Claims) (now : Int) (t : String) (p : Claims)
        (sub : String),
        t ≠ "" → jwtDecode t = some p → tokenExpired p.exp now = false →
        p.sub = some sub → sub ≠ "" → p.roles = none →
        ∃ u, decodeToken jwtDecode now t = .ok u ∧ u.roles = []) := by
  intro h
  obtain ⟨u, hu, _⟩ := h sampleDecode 1000 "noroles"
    { sub := some "a@b.com", roles := none, userId := some 7, exp := some 2000 }
    "a@b.com" (by decide) (by decide) (by decide) rfl (by decide) rfl
  have hdec : decodeToken sampleDecode 1000 "noroles" = .error .invalid := by decide
  rw [hdec] at hu
  cases hu

/-- C8, amended: a non-expired credential that carries a subject but no `roles`
claim is rejected: the guard `decoded.sub && decoded.roles` fails, the `try`
block throws the invalid-token error, no user is set and the stored token is
removed. -/
theorem loadUserFromToken_rejects_absent_roles (jwtDecode : String → Option Claims)
    (now : Int) (t : String) (p : Claims) (sub : String) (s : Session)
    (ht : t ≠ "") (hd : jwtDecode t = some p) (hx : tokenExpired p.exp now = false)
    (hsub : p.sub = some sub) (hroles : p.roles = none) :
    decodeToken jwtDecode now t = .error .invalid ∧
      (loadUserFromToken jwtDecode now (some t) s).user = none ∧
      (loadUserFromToken jwtDecode now (some t) s).storage = none ∧
      (loadUserFromToken jwtDecode now (some t) s).token = none := by
  have hinv : decodeToken jwtDecode now t = .error .invalid := by
    simp [decodeToken, hd, hx, hsub, hroles, truthyRoles]
  rw [loadUserFromToken_error jwtDecode now t s _ ht hinv]
  exact ⟨hinv, rfl, rfl, rfl⟩

/-- Witness of the amended C8: the token `noroles` at `now = 1000`. -/
theorem loadUserFromToken_rejects_absent_roles_witness :
    ("noroles" ≠ "" ∧ tokenExpired (some 2000) 1000 = false) ∧
      (decodeToken sampleDecode 1000 "noroles" = .error .invalid ∧
        (loadUserFromToken sampleDecode 1000 (some "noroles") sampleSession).user = none ∧
        (loadUserFromToken sampleDecode 1000 (some "noroles") sampleSession).storage = none ∧
        (loadUserFromToken sampleDecode 1000 (some "noroles") sampleSession).token = none) :=
  ⟨by decide,
    loadUserFromToken_rejects_absent_roles sampleDecode 1000 "noroles"
      { sub := some "a@b.com", roles := none, userId := some 7, exp := some 2000 }
      "a@b.com" sampleSession (by decide) (by decide) (by decide) rfl rfl⟩

/-! ## The identity of an accepted credential -/

/-- C9: whenever `loadUserFromToken` leaves a user set, the credential it was
given decodes to a payload with a `sub` and a `roles` claim, and the user is
exactly `{ email: sub, roles: roles, id: userId }` of that payload, the role
list unchanged; `isAuthenticated` is then true. -/
theorem loadUserFromToken_identity (jwtDecode : String → Option Claims) (now : Int)
    (tok : Option String) (s : Session) (u : User)
    (hacc : (loadUserFromToken jwtDecode now tok s).user = some u) :
    (∃ t p sub roles, tok = some t ∧ jwtDecode t = some p ∧
        p.sub = some sub ∧ p.roles = some roles ∧
        u = { email := sub, roles := roles, id := p.userId }) ∧
      (contextValue (loadUserFromToken jwtDecode now tok s)).isAuthenticated = true := by
  refine ⟨?_, by simp [contextValue, hacc]⟩
  cases htr : truthyString tok with
  | false =>
    rw [loadUserFromToken_falsy jwtDecode now tok s htr] at hacc
    cases hacc
  | true =>
    cases tok with
    | none => simp [truthyString] at htr
    | some t =>
      have ht : t ≠ "" := (truthyString_some t).mp htr
      cases hd : decodeToken jwtDecode now t with
      | error err =>
        rw [loadUserFromToken_error jwtDecode now t s err ht hd] at hacc
        cases hacc
      | ok v =>
        rw [loadUserFromToken_ok jwtDecode now t s v ht hd] at hacc
        have hv : v = u := by simpa using hacc
        subst hv
        obtain ⟨p, sub, roles, hp, _, hs, _, hr, hu⟩ :=
          (decodeToken_ok_iff jwtDecode now t v).mp hd
        exact ⟨t, p, sub, roles, rfl, hp, hs, hr, hu⟩

/-- Witness of C9: the token `valid` at `now = 1000` sets the user
`a@b.com` with roles `["ROLE_PACIENTE"]` and id `7`. -/
theorem loadUserFromToken_identity_witness :
    (loadUserFromToken sampleDecode 1000 (some "valid") (initialSession none)).user =
        some { email := "a@b.com", roles := ["ROLE_PACIENTE"], id := some 7 } ∧
      (contextValue
        (loadUserFromToken sampleDecode 1000 (some "valid")
          (initialSession none))).isAuthenticated = true :=
  ⟨by decide,
    (loadUserFromToken_identity sampleDecode 1000 (some "valid") (initialSession none)
      { email := "a@b.com", roles := ["ROLE_PACIENTE"], id := some 7 } (by decide)).2⟩

/-! ## Decoding and the clock -/

theorem tokenExpired_mono (exp : Option Int) (now1 now2 : Int) (hle : now1 ≤ now2)
    (hx : tokenExpired exp now1 = true) : tokenExpired exp now2 = true := by
  cases exp with
  | none => simp [tokenExpired] at hx
  | some e =>
    simp only [tokenExpired, decide_eq_true_eq] at hx ⊢
    omega

/-- C10, as stated, fails: the token `old` (`exp = 1`) is accepted by a decode
at clock `500` and rejected by a decode at clock `5000`. -/
theorem decodeToken_depends_on_clock :
    ¬ (∀ (jwtDecode : String → Option Claims) (t : String) (now1 now2 : Int),
        decodeToken jwtDecode now1 t = decodeToken jwtDecode now2 t) := by
  intro h
  have h1 := h sampleDecode "old" 500 5000
  revert h1
  decide

/-- C10, amended: the result of decoding is a function of the credential and
of the clock value read by the call.  At one clock value the user left by
`loadUserFromToken` is the same from every session state; two decodes of one
credential that both succeed, at whatever clock values, give the same identity;
and a credential rejected at one instant is rejected at every later one. -/
theorem decodeToken_function_of_token_and_clock (jwtDecode : String → Option Claims)
    (tok : Option String) (t : String) (now1 now2 : Int) (s1 s2 : Session) :
    (loadUserFromToken jwtDecode now1 tok s1).user =
        (loadUserFromToken jwtDecode now1 tok s2).user ∧
      (∀ u1 u2, decodeToken jwtDecode now1 t = .ok u1 →
        decodeToken jwtDecode now2 t = .ok u2 → u1 = u2) ∧
      (now1 ≤ now2 → ∀ err, decodeToken jwtDecode now1 t = .error err →
        ∃ err2, decodeToken jwtDecode now2 t = .error err2) := by
  refine ⟨?_, ?_, ?_⟩
  · cases htr : truthyString tok with
    | false => simp [loadUserFromToken, htr]
    | true =>
      cases hd : decodeToken jwtDecode now1 (tok.getD "") with
      | error err => simp [loadUserFromToken, htr, hd, logout]
      | ok v => simp [loadUserFromToken, htr, hd]
  · intro u1 u2 h1 h2
    obtain ⟨p, sub, roles, hp, _, hs, _, hr, hu1⟩ :=
      (decodeToken_ok_iff jwtDecode now1 t u1).mp h1
    obtain ⟨q, sub2, roles2, hq, _, hs2, _, hr2, hu2⟩ :=
      (decodeToken_ok_iff jwtDecode now2 t u2).mp h2
    rw [hp] at hq
    cases hq
    rw [hs] at hs2
    rw [hr] at hr2
    cases hs2
    cases hr2
    rw [hu1, hu2]
  · intro hle err h1
    cases h2 : decodeToken jwtDecode now2 t with
    | error err2 => exact ⟨err2, rfl⟩
    | ok u =>
      exfalso
      obtain ⟨p, sub, roles, hp, hx, hs, hne, hr, hu⟩ :=
        (decodeToken_ok_iff jwtDecode now2 t u).mp h2
      have hx1 : tokenExpired p.exp now1 = false := by
        cases hc : tokenExpired p.exp now1 with
        | false => rfl
        | true =>
          have := tokenExpired_mono p.exp now1 now2 hle hc
          rw [hx] at this
          cases this
      have hok : decodeToken jwtDecode now1 t = .ok u :=
        (decodeToken_ok_iff jwtDecode now1 t u).mpr ⟨p, sub, roles, hp, hx1, hs, hne, hr, hu⟩
      rw [hok] at h1
      cases h1

/-- Witness of the amended C10: the token `old` decoded at clocks `5000` and
`6000`, from two different session states. -/
theorem decodeToken_function_of_token_and_clock_witness :
    ((5000 : Int) ≤ 6000 ∧ decodeToken sampleDecode 5000 "old" = .error .expired) ∧
      (∃ err2, decodeToken sampleDecode 6000 "old" = .error err2) ∧
      (loadUserFromToken sampleDecode 5000 (some "old") sampleSession).user =
        (loadUserFromToken sampleDecode 5000 (some "old") (initialSession none)).user :=
  ⟨by decide,
    (decodeToken_function_of_token_and_clock sampleDecode (some "old") "old" 5000 6000
      sampleSession (initialSession none)).2.2 (by decide) .expired (by decide),
    (decodeToken_function_of_token_and_clock sampleDecode (some "old") "old" 5000 6000
      sampleSession (initialSession none)).1⟩

/-! ## The credential-validity invariant -/

theorem SessionInv_initial (jwtDecode : String → Option Claims) (stored : Option String) :
    SessionInv jwtDecode [] (initialSession stored) := by
  constructor
  · intro t ht _
    simpa [initialSession] using ht
  · intro u hu
    simp [initialSession] at hu

theorem SessionInv_logout (jwtDecode : String → Option Claims) (clocks : List Int)
    (s : Session) : SessionInv jwtDecode clocks (logout s) := by
  constructor
  · intro t ht
    simp [logout] at ht
  · intro u hu
    simp [logout] at hu

/-- The invariant does not look at `loading` or at the toasts. -/
theorem SessionInv_congr (jwtDecode : String → Option Claims) (clocks : List Int)
    (s s2 : Session) (hu : s2.user = s.user) (ht : s2.token = s.token)
    (hs : s2.storage = s.storage) (h : SessionInv jwtDecode clocks s) :
    SessionInv jwtDecode clocks s2 := by
  unfold SessionInv at h ⊢
  rw [hu, ht, hs]
  exact h

theorem SessionInv_mono (jwtDecode : String → Option Claims) (clocks clocks2 : List Int)
    (s : Session) (hsub : ∀ n ∈ clocks, n ∈ clocks2) (h : SessionInv jwtDecode clocks s) :
    SessionInv jwtDecode clocks2 s := by
  refine ⟨h.1, ?_⟩
  intro u hu
  obtain ⟨t, hst, htk, now, hnow, hd⟩ := h.2 u hu
  exact ⟨t, hst, htk, now, hsub now hnow, hd⟩

/-- Decoding a token that is both held in state and stored keeps the
invariant, once the clock value of the call is recorded. -/
theorem SessionInv_loadUserFromToken (jwtDecode : String → Option Claims)
    (clocks : List Int) (now : Int) (tok : Option String) (s : Session)
    (hnow : now ∈ clocks)
    (htok : ∀ t, tok = some t → t ≠ "" → s.token = some t ∧ s.storage = some t)
    (h1 : ∀ t, s.token = some t → t ≠ "" → s.storage = some t) :
    SessionInv jwtDecode clocks (loadUserFromToken jwtDecode now tok s) := by
  cases htr : truthyString tok with
  | false =>
    rw [loadUserFromToken_falsy jwtDecode now tok s htr]
    exact ⟨h1, fun u hu => by simp at hu⟩
  | true =>
    cases tok with
    | none => simp [truthyString] at htr
    | some t =>
      have ht : t ≠ "" := (truthyString_some t).mp htr
      cases hd : decodeToken jwtDecode now t with
      | error err =>
        rw [loadUserFromToken_error jwtDecode now t s err ht hd]
        exact SessionInv_logout jwtDecode clocks _
      | ok v =>
        rw [loadUserFromToken_ok jwtDecode now t s v ht hd]
        obtain ⟨htk, hst⟩ := htok t rfl ht
        refine ⟨h1, ?_⟩
        intro u hu
        have hv : v = u := by simpa using hu
        subst hv
        exact ⟨t, hst, htk, now, hnow, hd⟩

theorem SessionInv_step (jwtDecode : String → Option Claims) (clocks clocks2 : List Int)
    (s : Session) (ev : Event) (hsub : ∀ n ∈ clocks, n ∈ clocks2)
    (hclock : ∀ n, ev.clock = some n → n ∈ clocks2)
    (h : SessionInv jwtDecode clocks s) :
    SessionInv jwtDecode clocks2 (step jwtDecode s ev) := by
  have h2 := SessionInv_mono jwtDecode clocks clocks2 s hsub h
  cases ev with
  | logout => exact SessionInv_logout jwtDecode clocks2 s
  | effect now =>
    have hnow : now ∈ clocks2 := hclock now rfl
    simp only [step, startupEffect]
    refine SessionInv_congr jwtDecode clocks2 _ _ rfl rfl rfl ?_
    split
    · exact SessionInv_loadUserFromToken jwtDecode clocks2 now s.token s hnow
        (fun t ht hne => ⟨ht, h.1 t ht hne⟩) h.1
    · exact h2
  | login now resp =>
    have hnow : now ∈ clocks2 := hclock now rfl
    cases resp with
    | failed message =>
      simp only [step, login]
      exact SessionInv_congr jwtDecode clocks2 (logout s) _ rfl rfl rfl
        (SessionInv_logout jwtDecode clocks2 s)
    | ok newToken =>
      simp only [step, login]
      refine SessionInv_congr jwtDecode clocks2 _ _ rfl rfl rfl ?_
      apply SessionInv_loadUserFromToken jwtDecode clocks2 now newToken _ hnow
      · intro t ht _
        subst ht
        exact ⟨rfl, rfl⟩
      · intro t ht _
        have : newToken = some t := ht
        subst this
        rfl

theorem SessionInv_run (jwtDecode : String → Option Claims) (evs : List Event)
    (clocks : List Int) (s : Session) (h : SessionInv jwtDecode clocks s) :
    SessionInv jwtDecode (clocks ++ evs.filterMap Event.clock) (run jwtDecode s evs) := by
  induction evs generalizing clocks s with
  | nil => simpa [run] using h
  | cons ev evs ih =>
    have hstep : SessionInv jwtDecode (clocks ++ [ev].filterMap Event.clock)
        (step jwtDecode s ev) := by
      apply SessionInv_step jwtDecode clocks _ s ev _ _ h
      · intro n hn
        exact List.mem_append_left _ hn
      · intro n hn
        simp [List.filterMap_cons, hn]
    have := ih _ _ hstep
    have heq : clocks ++ [ev].filterMap Event.clock ++ evs.filterMap Event.clock =
        clocks ++ (ev :: evs).filterMap Event.clock := by
      rw [List.append_assoc, ← List.filterMap_append]
      rfl
    rw [heq] at this
    exact this

/-- A credential submitted by an event and failing to decode leaves neither a
user nor a stored token. -/
theorem step_rejected (jwtDecode : String → Option Claims) (s : Session) (ev : Event)
    (c : String) (now : Int) (err : DecodeError) (hsub : ev.submitted s = some c)
    (hclock : ev.clock = some now) (hd : decodeToken jwtDecode now c = .error err) :
    (step jwtDecode s ev).user = none ∧ (step jwtDecode s ev).storage = none := by
  cases ev with
  | logout => simp [Event.submitted] at hsub
  | effect now2 =>
    have hn : now2 = now := by simpa [Event.clock] using hclock
    subst hn
    cases htr : truthyString s.token with
    | false => simp [Event.submitted, htr] at hsub
    | true =>
      have htok : s.token = some c := by simpa [Event.submitted, htr] using hsub
      have hc : c ≠ "" := (truthyString_some c).mp (htok ▸ htr)
      simp only [step, startupEffect, htr, if_true]
      rw [htok, loadUserFromToken_error jwtDecode now2 c s err hc hd]
      exact ⟨rfl, rfl⟩
  | login now2 resp =>
    have hn : now2 = now := by simpa [Event.clock] using hclock
    subst hn
    cases resp with
    | failed message => simp [Event.submitted] at hsub
    | ok newToken =>
      cases htr : truthyString newToken with
      | false => simp [Event.submitted, htr] at hsub
      | true =>
        have htok : newToken = some c := by simpa [Event.submitted, htr] using hsub
        subst htok
        have hc : c ≠ "" := (truthyString_some c).mp htr
        simp only [step, login]
        rw [loadUserFromToken_error jwtDecode now2 c _ err hc hd]
        exact ⟨rfl, rfl⟩

/-- C2: in every state reached from mount by a sequence of effect runs, logins
(succeeding or failing) and logouts, a user that is set comes with a stored
token, also held in state, and is exactly the result of decoding that token at
a clock value read during the sequence; and an event that submits a token
failing to decode leaves no user and no stored token. -/
theorem session_credential_invariant (jwtDecode : String → Option Claims)
    (stored : Option String) (evs : List Event) :
    (∀ u, (run jwtDecode (initialSession stored) evs).user = some u →
        ∃ t, (run jwtDecode (initialSession stored) evs).storage = some t ∧
          (run jwtDecode (initialSession stored) evs).token = some t ∧
          ∃ now ∈ evs.filterMap Event.clock, decodeToken jwtDecode now t = .ok u) ∧
      (∀ (ev : Event) (c : String) (now : Int) (err : DecodeError),
        ev.submitted (run jwtDecode (initialSession stored) evs) = some c →
        ev.clock = some now →
        decodeToken jwtDecode now c = .error err →
        (run jwtDecode (initialSession stored) (evs ++ [ev])).user = none ∧
          (run jwtDecode (initialSession stored) (evs ++ [ev])).storage = none) := by
  constructor
  · have h := SessionInv_run jwtDecode evs [] (initialSession stored)
      (SessionInv_initial jwtDecode stored)
    simpa using h.2
  · intro ev c now err hsub hclock hd
    have hrun : run jwtDecode (initialSession stored) (evs ++ [ev]) =
        step jwtDecode (run jwtDecode (initialSession stored) evs) ev := by
      simp [run, List.foldl_append]
    rw [hrun]
    exact step_rejected jwtDecode _ ev c now err hsub hclock hd

/-- Witness of C2: mount with the stored token `valid`, effect at clock `1000`,
logout, login answering `valid` at clock `1500`, then a login answering the
expired token `old` at clock `5000`. -/
theorem session_credential_invariant_witness :
    (run sampleDecode (initialSession (some "valid"))
        [.effect 1000, .logout, .login 1500 (.ok (some "valid"))]).user =
        some { email := "a@b.com", roles := ["ROLE_PACIENTE"], id := some 7 } ∧
      (∃ t, (run sampleDecode (initialSession (some "valid"))
          [.effect 1000, .logout, .login 1500 (.ok (some "valid"))]).storage = some t ∧
        (run sampleDecode (initialSession (some "valid"))
          [.effect 1000, .logout, .login 1500 (.ok (some "valid"))]).token = some t ∧
        ∃ now ∈ [Event.effect 1000, .logout, .login 1500 (.ok (some "valid"))].filterMap
            Event.clock,
          decodeToken sampleDecode now t =
            .ok { email := "a@b.com", roles := ["ROLE_PACIENTE"], id := some 7 }) ∧
      ((run sampleDecode (initialSession (some "valid"))
          ([.effect 1000, .logout, .login 1500 (.ok (some "valid"))] ++
            [.login 5000 (.ok (some "old"))])).user = none ∧
        (run sampleDecode (initialSession (some "valid"))
          ([.effect 1000, .logout, .login 1500 (.ok (some "valid"))] ++
            [.login 5000 (.ok (some "old"))])).storage = none) :=
  ⟨by decide,
    (session_credential_invariant sampleDecode (some "valid")
      [.effect 1000, .logout, .login 1500 (.ok (some "valid"))]).1 _ (by decide),
    (session_credential_invariant sampleDecode (some "valid")
      [.effect 1000, .logout, .login 1500 (.ok (some "valid"))]).2
      (.login 5000 (.ok (some "old"))) "old" 5000 .expired (by decide) (by decide)
      (by decide)⟩

/-! ## Startup -/

/-- C11: startup with a stored credential whose expiry lies in the past: once
the startup effect has run the user is `null`, the token state is `null`, the
stored token is removed and `loading` is false. -/
theorem startupEffect_expired (jwtDecode : String → Option Claims) (now e : Int)
    (t : String) (p : Claims) (ht : t ≠ "") (hd : jwtDecode t = some p)
    (he : p.exp = some e) (hlt : e * 1000 < now) :
    (startupEffect jwtDecode now (initialSession (some t))).user = none ∧
      (startupEffect jwtDecode now (initialSession (some t))).token = none ∧
      (startupEffect jwtDecode now (initialSession (some t))).storage = none ∧
      (startupEffect jwtDecode now (initialSession (some t))).loading = false := by
  have hx : decodeToken jwtDecode now t = .error .expired := by
    simp [decodeToken, hd, he, tokenExpired, hlt]
  have htr : truthyString (some t) = true := (truthyString_some t).mpr ht
  have hs : startupEffect jwtDecode now (initialSession (some t)) =
      { loadUserFromToken jwtDecode now (some t) (initialSession (some t)) with
        loading := false } := by
    simp [startupEffect, initialSession, htr]
  rw [hs, loadUserFromToken_error jwtDecode now t _ _ ht hx]
  exact ⟨rfl, rfl, rfl, rfl⟩

/-- Witness of C11: the stored token `old` expires at second `1`; the startup
effect runs ten minutes later, at millisecond `601000`. -/
theorem startupEffect_expired_witness :
    ("old" ≠ "" ∧ (1 : Int) * 1000 < 601000 ∧ (601000 : Int) = (1 + 10 * 60) * 1000) ∧
      ((startupEffect sampleDecode 601000 (initialSession (some "old"))).user = none ∧
        (startupEffect sampleDecode 601000 (initialSession (some "old"))).token = none ∧
        (startupEffect sampleDecode 601000 (initialSession (some "old"))).storage = none ∧
        (startupEffect sampleDecode 601000 (initialSession (some "old"))).loading = false) :=
  ⟨by decide,
    startupEffect_expired sampleDecode 601000 1 "old"
      { sub := some "a@b.com", roles := some ["ROLE_ADMIN"], userId := some 1, exp := some 1 }
      (by decide) (by decide) rfl (by decide)⟩

/-- C12: after the startup effect `loading` is false, whatever the token store
held; with no stored credential the user stays `null` and the store is left as
it was; with a stored credential that decodes validly the user is the identity
decoded from it and the store still holds it. -/
theorem startupEffect_leaves_initializing (jwtDecode : String → Option Claims) (now : Int)
    (stored : Option String) :
    (startupEffect jwtDecode now (initialSession stored)).loading = false ∧
      (truthyString stored = false →
        (startupEffect jwtDecode now (initialSession stored)).user = none ∧
          (startupEffect jwtDecode now (initialSession stored)).storage = stored) ∧
      (∀ t u, stored = some t → t ≠ "" → decodeToken jwtDecode now t = .ok u →
        (startupEffect jwtDecode now (initialSession stored)).user = some u ∧
          (startupEffect jwtDecode now (initialSession stored)).storage = some t ∧
          (startupEffect jwtDecode now (initialSession stored)).token = some t) := by
  refine ⟨rfl, ?_, ?_⟩
  · intro hf
    simp [startupEffect, initialSession, hf]
  · intro t u hst ht hd
    subst hst
    have htr : truthyString (some t) = true := (truthyString_some t).mpr ht
    have hs : startupEffect jwtDecode now (initialSession (some t)) =
        { loadUserFromToken jwtDecode now (some t) (initialSession (some t)) with
          loading := false } := by
      simp [startupEffect, initialSession, htr]
    rw [hs, loadUserFromToken_ok jwtDecode now t _ u ht hd]
    exact ⟨rfl, rfl, rfl⟩

/-- Witness of C12: startup at clock `1000` with an empty store, and with the
stored token `valid`. -/
theorem startupEffect_leaves_initializing_witness :
    ((startupEffect sampleDecode 1000 (initialSession none)).user = none ∧
        (startupEffect sampleDecode 1000 (initialSession none)).storage = none) ∧
      ((startupEffect sampleDecode 1000 (initialSession (some "valid"))).user =
          some { email := "a@b.com", roles := ["ROLE_PACIENTE"], id := some 7 } ∧
        (startupEffect sampleDecode 1000 (initialSession (some "valid"))).storage =
          some "valid" ∧
        (startupEffect sampleDecode 1000 (initialSession (some "valid"))).token =
          some "valid") ∧
      (startupEffect sampleDecode 1000 (initialSession (some "valid"))).loading = false :=
  ⟨(startupEffect_leaves_initializing sampleDecode 1000 none).2.1 (by decide),
    (startupEffect_leaves_initializing sampleDecode 1000 (some "valid")).2.2 "valid"
      { email := "a@b.com", roles := ["ROLE_PACIENTE"], id := some 7 } rfl (by decide)
      (by decide),
    (startupEffect_leaves_initializing sampleDecode 1000 (some "valid")).1⟩

/-! ## Login and logout -/

/-- C13: a login whose request succeeds with a token that decodes validly at
that moment leaves the store holding exactly that token, the user equal to the
decode of it, and returns `{ token }`.  When the decode is the user `a@b.com`
with roles `["ROLE_PACIENTE"]` and id `7`, `isAuthenticated` is true and the
guard grants `["ROLE_PACIENTE"]` and denies `["ROLE_ADMIN"]`. -/
theorem login_success (jwtDecode : String → Option Claims) (now : Int) (t : String)
    (u : User) (s : Session) (ht : t ≠ "") (hd : decodeToken jwtDecode now t = .ok u) :
    (login jwtDecode now (.ok (some t)) s).1.storage = some t ∧
      (login jwtDecode now (.ok (some t)) s).1.token = some t ∧
      (login jwtDecode now (.ok (some t)) s).1.user = some u ∧
      (login jwtDecode now (.ok (some t)) s).2 = .ok (some t) ∧
      (u = { email := "a@b.com", roles := ["ROLE_PACIENTE"], id := some 7 } →
        (contextValue (login jwtDecode now (.ok (some t)) s).1).isAuthenticated = true ∧
          PrivateRoute (contextValue (login jwtDecode now (.ok (some t)) s).1)
            ["ROLE_PACIENTE"] = .children ∧
          PrivateRoute (contextValue (login jwtDecode now (.ok (some t)) s).1)
            ["ROLE_ADMIN"] = .navigate "/nao-autorizado") := by
  have hl : (login jwtDecode now (.ok (some t)) s).1 =
      { s with
        storage := some t
        token := some t
        user := some u
        toasts := s.toasts ++ [⟨ToastKind.success, "Login realizado com sucesso!"⟩] } := by
    simp only [login, storedText, Option.getD_some]
    rw [loadUserFromToken_ok jwtDecode now t _ u ht hd]
  rw [hl]
  refine ⟨rfl, rfl, rfl, rfl, ?_⟩
  intro hu
  subst hu
  refine ⟨rfl, ?_, ?_⟩ <;>
    simp [PrivateRoute, contextValue, AuthContextValue.loading, userHasRole]

/-- Witness of C13: a login answered with the token `valid` at clock `1000`,
from the session right after mount. -/
theorem login_success_witness :
    ("valid" ≠ "" ∧
        decodeToken sampleDecode 1000 "valid" =
          .ok { email := "a@b.com", roles := ["ROLE_PACIENTE"], id := some 7 }) ∧
      (login sampleDecode 1000 (.ok (some "valid")) (initialSession none)).1.user =
        some { email := "a@b.com", roles := ["ROLE_PACIENTE"], id := some 7 } ∧
      PrivateRoute (contextValue (login sampleDecode 1000 (.ok (some "valid"))
        (initialSession none)).1) ["ROLE_PACIENTE"] = .children ∧
      PrivateRoute (contextValue (login sampleDecode 1000 (.ok (some "valid"))
        (initialSession none)).1) ["ROLE_ADMIN"] = .navigate "/nao-autorizado" :=
  ⟨by decide,
    (login_success sampleDecode 1000 "valid"
      { email := "a@b.com", roles := ["ROLE_PACIENTE"], id := some 7 } (initialSession none)
      (by decide) (by decide)).2.2.1,
    ((login_success sampleDecode 1000 "valid"
      { email := "a@b.com", roles := ["ROLE_PACIENTE"], id := some 7 } (initialSession none)
      (by decide) (by decide)).2.2.2.2 rfl).2.1,
    ((login_success sampleDecode 1000 "valid"
      { email := "a@b.com", roles := ["ROLE_PACIENTE"], id := some 7 } (initialSession none)
      (by decide) (by decide)).2.2.2.2 rfl).2.2⟩

/-- C14: when the login request fails, `login` leaves the user `null`, the
token state `null` and the token store empty, and throws the same error to its
caller; this holds from every session, the anonymous ones included. -/
theorem login_failure (jwtDecode : String → Option Claims) (now : Int)
    (message : Option String) (s : Session) :
    (login jwtDecode now (.failed message) s).1.user = none ∧
      (login jwtDecode now (.failed message) s).1.token = none ∧
      (login jwtDecode now (.failed message) s).1.storage = none ∧
      (login jwtDecode now (.failed message) s).2 = .error message :=
  ⟨rfl, rfl, rfl, rfl⟩

/-- C15: after one `logout` the token store is empty, the token state is `null`
and the user is `null`; a second `logout` right after leaves the user, the
token state, the token store and `loading` as they were.  `logout` is a total
function: no call of it fails. -/
theorem logout_idempotent (s : Session) :
    (logout s).storage = none ∧ (logout s).token = none ∧ (logout s).user = none ∧
      (logout (logout s)).storage = (logout s).storage ∧
      (logout (logout s)).token = (logout s).token ∧
      (logout (logout s)).user = (logout s).user ∧
      (logout (logout s)).loading = (logout s).loading :=
  ⟨rfl, rfl, rfl, rfl, rfl, rfl, rfl⟩

/-! ## Request gateway -/

theorem getHeader_setHeader_same (headers : List (String × String)) (name value : String) :
    getHeader (setHeader headers name value) name = some value := by
  induction headers with
  | nil => simp [setHeader, getHeader]
  | cons kv rest ih =>
    obtain ⟨k, v⟩ := kv
    by_cases hk : k = name
    · simp [setHeader, getHeader, hk]
    · simp [setHeader, getHeader, hk, ih]

theorem getHeader_setHeader_other (headers : List (String × String))
    (name value other : String) (hne : other ≠ name) :
    getHeader (setHeader headers name value) other = getHeader headers other := by
  induction headers with
  | nil =>
    have hne2 : name ≠ other := fun h => hne h.symm
    simp [setHeader, getHeader, hne2]
  | cons kv rest ih =>
    obtain ⟨k, v⟩ := kv
    by_cases hk : k = name
    · have hko : k ≠ other := fun h => hne (h.symm.trans hk)
      have hne2 : name ≠ other := fun h => hne h.symm
      simp [setHeader, getHeader, hk, hne2]
    · by_cases hko : k = other
      · subst hko
        simp [setHeader, getHeader, hne]
      · simp [setHeader, getHeader, hk, hko, ih]

/-- C16: with a credential in the token store the request interceptor returns
the config with `Authorization` set to `Bearer ` followed by the stored token,
every other header as it was; with none it returns the config unchanged; in
both cases `method`, `url`, `baseURL` and `data` are left alone. -/
theorem requestInterceptor_bearer (storage : Option String) (config : RequestConfig) :
    (∀ t, storage = some t → t ≠ "" →
        getHeader (requestInterceptor storage config).headers "Authorization" =
            some ("Bearer " ++ t) ∧
          ∀ name, name ≠ "Authorization" →
            getHeader (requestInterceptor storage config).headers name =
              getHeader config.headers name) ∧
      (truthyString storage = false → requestInterceptor storage config = config) ∧
      (requestInterceptor storage config).method = config.method ∧
      (requestInterceptor storage config).url = config.url ∧
      (requestInterceptor storage config).baseURL = config.baseURL ∧
      (requestInterceptor storage config).data = config.data := by
  refine ⟨?_, ?_, ?_⟩
  · intro t hst ht
    subst hst
    have htr : truthyString (some t) = true := (truthyString_some t).mpr ht
    have hi : requestInterceptor (some t) config =
        { config with headers := setHeader config.headers "Authorization" ("Bearer " ++ t) } := by
      simp [requestInterceptor, htr]
    rw [hi]
    exact ⟨getHeader_setHeader_same _ _ _,
      fun name hne => getHeader_setHeader_other _ _ _ name hne⟩
  · intro hf
    simp [requestInterceptor, hf]
  · cases htr : truthyString storage <;> simp [requestInterceptor, htr]

/-- Witness of C16: a `post` with a content-type header, sent with the token
`valid` in the store and sent with an empty store. -/
theorem requestInterceptor_bearer_witness :
    getHeader (requestInterceptor (some "valid")
        { method := "post", url := "/consultas/agendar", baseURL := none, data := some "x",
          headers := [("Content-Type", "application/json")] }).headers "Authorization" =
        some ("Bearer " ++ "valid") ∧
      requestInterceptor none
        { method := "post", url := "/consultas/agendar", baseURL := none, data := some "x",
          headers := [("Content-Type", "application/json")] } =
        { method := "post", url := "/consultas/agendar", baseURL := none, data := some "x",
          headers := [("Content-Type", "application/json")] } :=
  ⟨((requestInterceptor_bearer (some "valid")
      { method := "post", url := "/consultas/agendar", baseURL := none, data := some "x",
        headers := [("Content-Type", "application/json")] }).1 "valid" rfl (by decide)).1,
    (requestInterceptor_bearer none
      { method := "post", url := "/consultas/agendar", baseURL := none, data := some "x",
        headers := [("Content-Type", "application/json")] }).2.1 rfl⟩

/-- C17: the instance `api` is one constant and holds no token; the header it
puts on a request is computed from the store content at that request.  After
any sequence of events, a request that follows a logout leaves the headers of
the config as the call site gave them, and a request that follows a login
answered with a valid token carries `Bearer ` followed by that token. -/
theorem api_reads_store_at_request (jwtDecode : String → Option Claims)
    (stored : Option String) (evs : List Event) (config : RequestConfig) (now : Int)
    (t : String) (u : User) :
    (∀ s : Session, api.request s.storage config =
        requestInterceptor s.storage
          { config with
            baseURL := if config.baseURL.isSome then config.baseURL else api.baseURL }) ∧
      (api.request (run jwtDecode (initialSession stored) (evs ++ [.logout])).storage
          config).headers = config.headers ∧
      (t ≠ "" → decodeToken jwtDecode now t = .ok u →
        getHeader
          (api.request
            (run jwtDecode (initialSession stored)
              (evs ++ [.login now (.ok (some t))])).storage config).headers
          "Authorization" = some ("Bearer " ++ t)) := by
  refine ⟨fun _ => rfl, ?_, ?_⟩
  · have hrun : run jwtDecode (initialSession stored) (evs ++ [.logout]) =
        logout (run jwtDecode (initialSession stored) evs) := by
      simp [run, List.foldl_append, step]
    rw [hrun]
    simp [logout, AxiosInstance.request, api, requestInterceptor, truthyString]
  · intro ht hd
    have hrun : run jwtDecode (initialSession stored) (evs ++ [.login now (.ok (some t))]) =
        (login jwtDecode now (.ok (some t)) (run jwtDecode (initialSession stored) evs)).1 := by
      simp [run, List.foldl_append, step]
    have hst : (login jwtDecode now (.ok (some t))
        (run jwtDecode (initialSession stored) evs)).1.storage = some t := by
      simp only [login, storedText, Option.getD_some]
      rw [loadUserFromToken_ok jwtDecode now t _ u ht hd]
    rw [hrun, hst]
    exact ((requestInterceptor_bearer (some t) _).1 t rfl ht).1

/-- Witness of C17: mount with the stored token `old`, then a login answered
with `valid` at clock `1000`: the next `get` carries `Bearer valid`. -/
theorem api_reads_store_at_request_witness :
    ("valid" ≠ "" ∧
        decodeToken sampleDecode 1000 "valid" =
          .ok { email := "a@b.com", roles := ["ROLE_PACIENTE"], id := some 7 }) ∧
      getHeader
        (api.request
          (run sampleDecode (initialSession (some "old"))
            ([] ++ [.login 1000 (.ok (some "valid"))])).storage
          { method := "get", url := "/perfil", baseURL := none, data := none,
            headers := [] }).headers
        "Authorization" = some ("Bearer " ++ "valid") :=
  ⟨by decide,
    (api_reads_store_at_request sampleDecode (some "old") []
      { method := "get", url := "/perfil", baseURL := none, data := none, headers := [] }
      1000 "valid" { email := "a@b.com", roles := ["ROLE_PACIENTE"], id := some 7 }).2.2
      (by decide) (by decide)⟩

/-- C18, evaluated on the code: `fetchStats` of the admin dashboard calls the
package's default `axios`, not `api`; whatever the token store holds, its
request has no `Authorization` header and no base URL, while the request of
the doctor dashboard, sent through `api`, has both. -/
theorem fetchStats_bypasses_gateway (storage : Option String) :
    fetchStatsRequest storage =
        { method := "get", url := "/api/admin/dashboard", baseURL := none, data := none,
          headers := [] } ∧
      getHeader (fetchStatsRequest (some "valid")).headers "Authorization" = none ∧
      (fetchStatsRequest (some "valid")).baseURL = none ∧
      getHeader (fetchDashboardDataRequest (some "valid")).headers "Authorization" =
        some "Bearer valid" ∧
      (fetchDashboardDataRequest (some "valid")).baseURL = some "http://localhost:8080" :=
  ⟨rfl, by decide, by decide, by decide, by decide⟩

/-! ## Rejected gateway calls -/

/-- C19, as stated, fails: in the sample session, which holds an identity, a
dashboard fetch rejected with status `401` does not tear the session down. -/
theorem fetchDashboardData_no_teardown_on_401 :
    ¬ (∀ (isBackgroundRefresh : Bool) (s : Session) (d : MedicoDashboard),
        s.user.isSome = true →
        (fetchDashboardData isBackgroundRefresh (.failed (some 401)) s d).1.user = none ∧
          (fetchDashboardData isBackgroundRefresh (.failed (some 401)) s d).1.storage =
            none) := by
  intro h
  have h1 := (h true sampleSession initialMedicoDashboard (by decide)).1
  revert h1
  decide

/-- C19, amended: when the dashboard fetch `fetchDashboardData`, made in the
authenticated state, is rejected by the remote side, with an
authentication-failure status or any other, the session is not torn down: the
user, the token state and the token store are unchanged and the view only
emits its error toast.  The rejection of the request of `login` itself, by
contrast, is followed by teardown, whatever the status. -/
theorem fetchDashboardData_failure_keeps_session (jwtDecode : String → Option Claims)
    (now : Int) (message : Option String) (isBackgroundRefresh : Bool)
    (status : Option Nat) (s : Session) (d : MedicoDashboard) :
    (fetchDashboardData isBackgroundRefresh (.failed status) s d).1.user = s.user ∧
      (fetchDashboardData isBackgroundRefresh (.failed status) s d).1.token = s.token ∧
      (fetchDashboardData isBackgroundRefresh (.failed status) s d).1.storage = s.storage ∧
      (s.user.isSome = true →
        (fetchDashboardData isBackgroundRefresh (.failed status) s d).1.toasts =
          s.toasts ++
            [⟨ToastKind.error, "Não foi possível carregar os dados do dashboard."⟩]) ∧
      ((login jwtDecode now (.failed message) s).1.user = none ∧
        (login jwtDecode now (.failed message) s).1.token = none ∧
        (login jwtDecode now (.failed message) s).1.storage = none) := by
  refine ⟨?_, ?_, ?_, ?_, rfl, rfl, rfl⟩ <;>
    cases hu : s.user <;> simp [fetchDashboardData, fetchDashboardDataSettle, hu]

/-- Witness of the amended C19: in the sample session, which holds an
identity, a background refresh rejected with status `401` keeps the identity
and the stored token, while a rejected login request removes both. -/
theorem fetchDashboardData_failure_keeps_session_witness :
    sampleSession.user.isSome = true ∧
      (fetchDashboardData true (.failed (some 401)) sampleSession
          initialMedicoDashboard).1.user = sampleSession.user ∧
      (fetchDashboardData true (.failed (some 401)) sampleSession
          initialMedicoDashboard).1.storage = some "valid" ∧
      (fetchDashboardData true (.failed (some 401)) sampleSession
          initialMedicoDashboard).1.toasts =
        sampleSession.toasts ++
          [⟨ToastKind.error, "Não foi possível carregar os dados do dashboard."⟩] ∧
      (login sampleDecode 1000 (.failed none) sampleSession).1.user = none :=
  ⟨by decide,
    (fetchDashboardData_failure_keeps_session sampleDecode 1000 none true (some 401)
      sampleSession initialMedicoDashboard).1,
    (fetchDashboardData_failure_keeps_session sampleDecode 1000 none true (some 401)
      sampleSession initialMedicoDashboard).2.2.1,
    (fetchDashboardData_failure_keeps_session sampleDecode 1000 none true (some 401)
      sampleSession initialMedicoDashboard).2.2.2.1 (by decide),
    (fetchDashboardData_failure_keeps_session sampleDecode 1000 none true (some 401)
      sampleSession initialMedicoDashboard).2.2.2.2.1⟩

/-! ## Notices on rejection -/

/-- C20, as stated, fails: rejecting the expired token `old` at clock `5000`
adds two toasts, not one. -/
theorem loadUserFromToken_not_single_notice :
    ¬ (∀ (jwtDecode : String → Option Claims) (now : Int) (t : String) (err : DecodeError)
        (s : Session),
        t ≠ "" → decodeToken jwtDecode now t = .error err →
        (loadUserFromToken jwtDecode now (some t) s).toasts.length = s.toasts.length + 1) := by
  intro h
  have h1 := h sampleDecode 5000 "old" .expired sampleSession (by decide) (by decide)
  revert h1
  decide

/-- C20, amended: a call of `loadUserFromToken` that rejects its credential
(malformed, expired or with missing fields) emits exactly two toasts, the
warning `Sessão expirada. Faça login novamente.` followed by the `logout`
notice `Sessão encerrada.`, and ends with the user `null`, the token state
`null` and the token store empty. -/
theorem loadUserFromToken_rejection_notices (jwtDecode : String → Option Claims)
    (now : Int) (t : String) (err : DecodeError) (s : Session) (ht : t ≠ "")
    (hd : decodeToken jwtDecode now t = .error err) :
    (loadUserFromToken jwtDecode now (some t) s).toasts =
        s.toasts ++
          [⟨ToastKind.warn, "Sessão expirada. Faça login novamente."⟩,
            ⟨ToastKind.info, "Sessão encerrada."⟩] ∧
      (loadUserFromToken jwtDecode now (some t) s).user = none ∧
      (loadUserFromToken jwtDecode now (some t) s).token = none ∧
      (loadUserFromToken jwtDecode now (some t) s).storage = none := by
  rw [loadUserFromToken_error jwtDecode now t s err ht hd]
  refine ⟨?_, rfl, rfl, rfl⟩
  simp [logout]

/-- Witness of the amended C20: the expired token `old` at clock `5000`, on
the sample session. -/
theorem loadUserFromToken_rejection_notices_witness :
    ("old" ≠ "" ∧ decodeToken sampleDecode 5000 "old" = .error .expired) ∧
      (loadUserFromToken sampleDecode 5000 (some "old") sampleSession).toasts =
        sampleSession.toasts ++
          [⟨ToastKind.warn, "Sessão expirada. Faça login novamente."⟩,
            ⟨ToastKind.info, "Sessão encerrada."⟩] :=
  ⟨by decide,
    (loadUserFromToken_rejection_notices sampleDecode 5000 "old" .expired sampleSession
      (by decide) (by decide)).1⟩

/-! ## Dashboard refresh -/

/-- C21: a background refresh whose request fails leaves `dashboardData` as it
was, so data loaded earlier stays displayed, and emits one error toast; both
flags end lowered. -/
theorem fetchDashboardData_background_failure (status : Option Nat) (s : Session)
    (d : MedicoDashboard) (data : String) (hu : s.user.isSome = true)
    (hdata : d.dashboardData = some data) :
    (fetchDashboardData true (.failed status) s d).2.dashboardData = some data ∧
      (fetchDashboardData true (.failed status) s d).1.toasts =
        s.toasts ++
          [⟨ToastKind.error, "Não foi possível carregar os dados do dashboard."⟩] ∧
      (fetchDashboardData true (.failed status) s d).2.loadingInitial = false ∧
      (fetchDashboardData true (.failed status) s d).2.isRefreshing = false := by
  cases hs : s.user with
  | none => simp [hs] at hu
  | some u =>
    simp [fetchDashboardData, fetchDashboardDataSettle, fetchDashboardDataBegin, hs, hdata]

/-- Witness of C21: data `d1` is displayed, the session holds an identity and
the background refresh fails without a response. -/
theorem fetchDashboardData_background_failure_witness :
    sampleSession.user.isSome = true ∧
      (fetchDashboardData true (.failed none) sampleSession
        { dashboardData := some "d1", loadingInitial := false,
          isRefreshing := false }).2.dashboardData = some "d1" :=
  ⟨by decide,
    (fetchDashboardData_background_failure none sampleSession
      { dashboardData := some "d1", loadingInitial := false, isRefreshing := false }
      "d1" (by decide) rfl).1⟩

/-- C22, as stated, fails: fetch 1 (foreground) and fetch 2 (background) are
both in flight; the response of fetch 2 arrives first, the response of fetch 1
second; the data displayed at the end is that of fetch 1. -/
theorem fetchDashboardData_stale_overwrites :
    ¬ (∀ (data1 data2 : String) (s : Session) (d : MedicoDashboard),
        (fetchDashboardDataSettle (.ok data1)
          (fetchDashboardDataSettle (.ok data2) s
            (fetchDashboardDataBegin true (fetchDashboardDataBegin false d))).1
          (fetchDashboardDataSettle (.ok data2) s
            (fetchDashboardDataBegin true (fetchDashboardDataBegin false d))).2).2.dashboardData
          = some data2) := by
  intro h
  have h1 := h "one" "two" sampleSession initialMedicoDashboard
  revert h1
  decide

/-- C22, amended: of two overlapping fetches that both succeed, the data
displayed once both have resolved is that of the response that arrived last:
the result of fetch 2 when the responses arrive in the order of issue, the
result of fetch 1 when the response of fetch 1 arrives after that of
fetch 2. -/
theorem fetchDashboardData_last_response_wins (b1 b2 : Bool) (data1 data2 : String)
    (s : Session) (d : MedicoDashboard) :
    (fetchDashboardDataSettle (.ok data2)
        (fetchDashboardDataSettle (.ok data1) s
          (fetchDashboardDataBegin b2 (fetchDashboardDataBegin b1 d))).1
        (fetchDashboardDataSettle (.ok data1) s
          (fetchDashboardDataBegin b2 (fetchDashboardDataBegin b1 d))).2).2.dashboardData
        = some data2 ∧
      (fetchDashboardDataSettle (.ok data1)
        (fetchDashboardDataSettle (.ok data2) s
          (fetchDashboardDataBegin b2 (fetchDashboardDataBegin b1 d))).1
        (fetchDashboardDataSettle (.ok data2) s
          (fetchDashboardDataBegin b2 (fetchDashboardDataBegin b1 d))).2).2.dashboardData
        = some data1 :=
  ⟨rfl, rfl⟩

/-! ## Polling -/

theorem pollingRun_invariant (evs : List PollingEvent) :
    ∃ id, (pollingRun evs).intervals = [⟨id, 300000, true⟩] ∧
      (pollingRun evs).cleanup = some id := by
  induction evs using List.reverseRecOn with
  | nil => exact ⟨0, rfl, rfl⟩
  | append_singleton evs ev ih =>
    obtain ⟨id, hi, hc⟩ := ih
    have hrun : pollingRun (evs ++ [ev]) = pollingStep (pollingRun evs) ev := by
      simp [pollingRun, List.foldl_append]
    rw [hrun]
    cases ev with
    | rerun =>
      have hcl : pollingCleanup (pollingRun evs) =
          { pollingRun evs with intervals := [], cleanup := none } := by
        simp [pollingCleanup, hc, hi]
      simp only [pollingStep, hcl]
      exact ⟨(pollingRun evs).nextId, rfl, rfl⟩
    | tick n =>
      refine ⟨id, ?_, ?_⟩
      · simp only [pollingStep, pollingTick]
        split <;> simp [hi]
      · simp only [pollingStep, pollingTick]
        split <;> simp [hc]

/-- C23: every run of the polling effect calls the fetch once, in foreground
mode, and registers one interval of `5 * 60 * 1000 = 300000` ms whose callback
passes `true`, the interval its cleanup holds.  After mount and any sequence of
effect re-runs and ticks exactly one interval is active; it has that delay, it
is the one the pending cleanup clears, and a tick of it adds exactly one call
of the fetch, in background mode; a tick of any other timer id does nothing; a
re-run adds exactly one foreground call and leaves one interval active; the
cleanup run at unmount leaves no interval active. -/
theorem polling_single_interval (evs : List PollingEvent) :
    (∀ p : Polling,
        (pollingEffect p).calls = p.calls ++ [false] ∧
          (pollingEffect p).intervals = p.intervals ++ [⟨p.nextId, 300000, true⟩] ∧
          (pollingEffect p).cleanup = some p.nextId) ∧
      (pollingRun evs).intervals.length = 1 ∧
      (∀ i ∈ (pollingRun evs).intervals,
        i.delay = 300000 ∧ i.isBackgroundRefresh = true ∧
          (pollingRun evs).cleanup = some i.id ∧
          (pollingTick i.id (pollingRun evs)).calls = (pollingRun evs).calls ++ [true]) ∧
      (∀ id, (∀ i ∈ (pollingRun evs).intervals, i.id ≠ id) →
        pollingTick id (pollingRun evs) = pollingRun evs) ∧
      (pollingStep (pollingRun evs) .rerun).calls = (pollingRun evs).calls ++ [false] ∧
      (pollingStep (pollingRun evs) .rerun).intervals.length = 1 ∧
      (pollingCleanup (pollingRun evs)).intervals = [] := by
  obtain ⟨id, hi, hc⟩ := pollingRun_invariant evs
  have hcl : pollingCleanup (pollingRun evs) =
      { pollingRun evs with intervals := [], cleanup := none } := by
    simp [pollingCleanup, hc, hi]
  refine ⟨fun p => ⟨rfl, rfl, rfl⟩, by simp [hi], ?_, ?_, ?_, ?_, ?_⟩
  · intro i hmem
    rw [hi] at hmem
    simp at hmem
    subst hmem
    refine ⟨rfl, rfl, hc, ?_⟩
    simp [pollingTick, hi, List.find?]
  · intro n hn
    have hne : id ≠ n := hn ⟨id, 300000, true⟩ (by simp [hi])
    have hb : (id == n) = false := by simpa using hne
    simp [pollingTick, hi, List.find?, hb]
  · simp only [pollingStep, hcl]
    rfl
  · simp only [pollingStep, hcl]
    rfl
  · rw [hcl]

/-- Witness of C23: mount, a re-run of the effect, a tick of the cleared timer
`0` and a tick of the active timer `1`: the calls are two foreground ones and
one background one, and the interval `1` alone is active. -/
theorem polling_single_interval_witness :
    pollingRun [.rerun, .tick 0, .tick 1] =
        { nextId := 2, intervals := [⟨1, 300000, true⟩], cleanup := some 1,
          calls := [false, false, true] } ∧
      (pollingTick 1 (pollingRun [.rerun, .tick 0, .tick 1])).calls =
        (pollingRun [.rerun, .tick 0, .tick 1]).calls ++ [true] ∧
      pollingTick 0 (pollingRun [.rerun, .tick 0, .tick 1]) =
        pollingRun [.rerun, .tick 0, .tick 1] ∧
      (pollingCleanup (pollingRun [.rerun, .tick 0, .tick 1])).intervals = [] :=
  ⟨by decide,
    ((polling_single_interval [.rerun, .tick 0, .tick 1]).2.2.1 ⟨1, 300000, true⟩
      (by decide)).2.2.2,
    (polling_single_interval [.rerun, .tick 0, .tick 1]).2.2.2.1 0 (by decide),
    (polling_single_interval [.rerun, .tick 0, .tick 1]).2.2.2.2.2.2⟩

/-! ## The loading gate -/

/-- C24: while `loading` is true `AuthProvider` renders the loading indicator
and not its children; the session is loading at mount; `login` and `logout`
leave `loading` as it is and only the startup effect, which ends after its
decode, lowers it; the children are rendered exactly when `loading` is
false. -/
theorem AuthProvider_waits_for_startup (jwtDecode : String → Option Claims)
    (stored : Option String) (s : Session) (now : Int) (resp : LoginResponse) :
    (s.loading = true → AuthProvider s = none) ∧
      ((AuthProvider s).isSome = true ↔ s.loading = false) ∧
      AuthProvider (initialSession stored) = none ∧
      (step jwtDecode s (.login now resp)).loading = s.loading ∧
      (step jwtDecode s .logout).loading = s.loading ∧
      (step jwtDecode s (.effect now)).loading = false ∧
      AuthProvider (step jwtDecode s (.effect now)) =
        some (contextValue (step jwtDecode s (.effect now))) := by
  have hload : ∀ (tok : Option String) (x : Session),
      (loadUserFromToken jwtDecode now tok x).loading = x.loading := by
    intro tok x
    unfold loadUserFromToken
    split
    · rfl
    · split <;> rfl
  refine ⟨?_, ?_, rfl, ?_, rfl, rfl, ?_⟩
  · intro h
    simp [AuthProvider, h]
  · cases h : s.loading <;> simp [AuthProvider, h]
  · cases resp with
    | failed message => rfl
    | ok newToken =>
      simp only [step, login]
      exact hload newToken _
  · simp [AuthProvider, step, startupEffect]

/-- Witness of C24: right after mount with the stored token `valid` nothing but
the indicator is rendered; after the effect the children get the context. -/
theorem AuthProvider_waits_for_startup_witness :
    (initialSession (some "valid")).loading = true ∧
      AuthProvider (initialSession (some "valid")) = none ∧
      (AuthProvider (step sampleDecode (initialSession (some "valid"))
        (.effect 1000))).isSome = true :=
  ⟨rfl,
    (AuthProvider_waits_for_startup sampleDecode none (initialSession (some "valid")) 1000
      (.failed none)).1 rfl,
    ((AuthProvider_waits_for_startup sampleDecode none
      (step sampleDecode (initialSession (some "valid")) (.effect 1000)) 1000
      (.failed none)).2.1).mpr (by decide)⟩

/-! ## Login with a token that fails to decode -/

/-- C25: when the login request succeeds but the returned token fails to
decode (malformed, expired, or without `sub` or `roles`), `login` does not
throw and returns `{ token }`, while the session it leaves has no user, no
token state and an empty token store; the success toast is still the last one
emitted. -/
theorem login_returns_token_after_teardown (jwtDecode : String → Option Claims) (now : Int)
    (t : String) (err : DecodeError) (s : Session) (ht : t ≠ "")
    (hd : decodeToken jwtDecode now t = .error err) :
    (login jwtDecode now (.ok (some t)) s).2 = .ok (some t) ∧
      (login jwtDecode now (.ok (some t)) s).1.user = none ∧
      (login jwtDecode now (.ok (some t)) s).1.token = none ∧
      (login jwtDecode now (.ok (some t)) s).1.storage = none ∧
      (login jwtDecode now (.ok (some t)) s).1.toasts.getLast? =
        some ⟨ToastKind.success, "Login realizado com sucesso!"⟩ := by
  have hl : (login jwtDecode now (.ok (some t)) s).1 =
      { logout { s with
          storage := some t
          token := some t
          toasts := s.toasts ++
            [⟨ToastKind.warn, "Sessão expirada. Faça login novamente."⟩] } with
        toasts := s.toasts ++
          [⟨ToastKind.warn, "Sessão expirada. Faça login novamente."⟩,
            ⟨ToastKind.info, "Sessão encerrada."⟩,
            ⟨ToastKind.success, "Login realizado com sucesso!"⟩] } := by
    simp only [login, storedText, Option.getD_some]
    rw [loadUserFromToken_error jwtDecode now t _ err ht hd]
    simp [logout]
  rw [hl]
  refine ⟨rfl, rfl, rfl, rfl, ?_⟩
  simp

/-- Witness of C25: a login answered with the expired token `old` at clock
`5000`. -/
theorem login_returns_token_after_teardown_witness :
    ("old" ≠ "" ∧ decodeToken sampleDecode 5000 "old" = .error .expired) ∧
      (login sampleDecode 5000 (.ok (some "old")) (initialSession none)).2 =
        .ok (some "old") ∧
      (login sampleDecode 5000 (.ok (some "old")) (initialSession none)).1.user = none :=
  ⟨by decide,
    (login_returns_token_after_teardown sampleDecode 5000 "old" .expired
      (initialSession none) (by decide) (by decide)).1,
    (login_returns_token_after_teardown sampleDecode 5000 "old" .expired
      (initialSession none) (by decide) (by decide)).2.1⟩

/-! ## Tokens without expiry -/

/-- C26: a credential whose payload has no `exp` but has a non-empty `sub` and
a `roles` claim is accepted by `loadUserFromToken` at every clock value: the
expiry test is false when `exp` is absent. -/
theorem loadUserFromToken_no_exp (jwtDecode : String → Option Claims) (now : Int)
    (t : String) (p : Claims) (sub : String) (roles : List String) (s : Session)
    (ht : t ≠ "") (hd : jwtDecode t = some p) (he : p.exp = none)
    (hsub : p.sub = some sub) (hne : sub ≠ "") (hroles : p.roles = some roles) :
    tokenExpired p.exp now = false ∧
      decodeToken jwtDecode now t = .ok { email := sub, roles := roles, id := p.userId } ∧
      (loadUserFromToken jwtDecode now (some t) s).user =
        some { email := sub, roles := roles, id := p.userId } ∧
      (loadUserFromToken jwtDecode now (some t) s).storage = s.storage := by
  have hx : tokenExpired p.exp now = false := by simp [he, tokenExpired]
  have hok : decodeToken jwtDecode now t =
      .ok { email := sub, roles := roles, id := p.userId } :=
    (decodeToken_ok_iff jwtDecode now t _).mpr ⟨p, sub, roles, hd, hx, hsub, hne, hroles, rfl⟩
  rw [loadUserFromToken_ok jwtDecode now t s _ ht hok]
  exact ⟨hx, hok, rfl, rfl⟩

/-- Witness of C26: the token `noexp` presented at a clock value far in the
future. -/
theorem loadUserFromToken_no_exp_witness :
    ("noexp" ≠ "" ∧ "a@b.com" ≠ "") ∧
      (loadUserFromToken sampleDecodeNoExp 99999999999999 (some "noexp")
        (initialSession (some "noexp"))).user =
        some { email := "a@b.com", roles := ["ROLE_MEDICO"], id := some 2 } :=
  ⟨by decide,
    (loadUserFromToken_no_exp sampleDecodeNoExp 99999999999999 "noexp"
      { sub := some "a@b.com", roles := some ["ROLE_MEDICO"], userId := some 2, exp := none }
      "a@b.com" ["ROLE_MEDICO"] (initialSession (some "noexp")) (by decide) (by decide) rfl rfl
      (by decide) rfl).2.2.1⟩

/-! ## Role flags -/

/-- C27: the flags `isAdmin`, `isMedico` and `isPaciente` test the role list
for the unprefixed strings `ADMIN`, `MEDICO` and `PACIENTE`: with a user set,
each flag is true exactly when its string is an element of the user's roles
(and with no user the flags are `undefined`).  Hence for a user whose roles are
all among `ROLE_ADMIN`, `ROLE_MEDICO` and `ROLE_PACIENTE` the three flags are
false, while the route guard grants that user every route requiring one of the
roles it holds. -/
theorem role_flags_unprefixed (s : Session) (u : User) (hu : s.user = some u) :
    ((contextValue s).isAdmin = some (decide ("ADMIN" ∈ u.roles)) ∧
        (contextValue s).isMedico = some (decide ("MEDICO" ∈ u.roles)) ∧
        (contextValue s).isPaciente = some (decide ("PACIENTE" ∈ u.roles))) ∧
      (((contextValue s).isAdmin = some true ↔ "ADMIN" ∈ u.roles) ∧
        ((contextValue s).isMedico = some true ↔ "MEDICO" ∈ u.roles) ∧
        ((contextValue s).isPaciente = some true ↔ "PACIENTE" ∈ u.roles)) ∧
      (∀ s0 : Session, s0.user = none →
        (contextValue s0).isAdmin = none ∧ (contextValue s0).isMedico = none ∧
          (contextValue s0).isPaciente = none) ∧
      ((∀ r ∈ u.roles, r = "ROLE_ADMIN" ∨ r = "ROLE_MEDICO" ∨ r = "ROLE_PACIENTE") →
        (contextValue s).isAdmin = some false ∧
          (contextValue s).isMedico = some false ∧
          (contextValue s).isPaciente = some false ∧
          (∀ r ∈ u.roles, PrivateRoute (contextValue s) [r] = .children)) := by
  refine ⟨?_, ?_, ?_, ?_⟩
  · simp [contextValue, hu]
  · simp [contextValue, hu]
  · intro s0 h0
    simp [contextValue, h0]
  · intro hroles
    have hnot : ∀ x : String, x ≠ "ROLE_ADMIN" → x ≠ "ROLE_MEDICO" → x ≠ "ROLE_PACIENTE" →
        x ∉ u.roles := by
      intro x h1 h2 h3 hm
      rcases hroles x hm with h | h | h
      · exact h1 h
      · exact h2 h
      · exact h3 h
    refine ⟨?_, ?_, ?_, ?_⟩
    · simp [contextValue, hu, hnot "ADMIN" (by decide) (by decide) (by decide)]
    · simp [contextValue, hu, hnot "MEDICO" (by decide) (by decide) (by decide)]
    · simp [contextValue, hu, hnot "PACIENTE" (by decide) (by decide) (by decide)]
    · intro r hr
      simp [PrivateRoute, contextValue, AuthContextValue.loading, hu, userHasRole, hr]

/-- Witness of C27: a user holding `ROLE_ADMIN` and `ROLE_MEDICO` has
`isAdmin` false and is granted the route requiring `ROLE_ADMIN`; a user
holding the unprefixed `ADMIN` has `isAdmin` true and `isMedico` false. -/
theorem role_flags_unprefixed_witness :
    (contextValue
        { sampleSession with
          user := some { email := "x@y.com", roles := ["ROLE_ADMIN", "ROLE_MEDICO"],
                         id := some 3 } }).isAdmin = some false ∧
      PrivateRoute
        (contextValue
          { sampleSession with
            user := some { email := "x@y.com", roles := ["ROLE_ADMIN", "ROLE_MEDICO"],
                           id := some 3 } })
        ["ROLE_ADMIN"] = .children ∧
      (contextValue
        { sampleSession with
          user := some { email := "x@y.com", roles := ["ADMIN"], id := some 3 } }).isAdmin =
        some true ∧
      (contextValue
        { sampleSession with
          user := some { email := "x@y.com", roles := ["ADMIN"], id := some 3 } }).isMedico =
        some false :=
  ⟨((role_flags_unprefixed _
      { email := "x@y.com", roles := ["ROLE_ADMIN", "ROLE_MEDICO"], id := some 3 } rfl).2.2.2
      (by decide)).1,
    ((role_flags_unprefixed _
      { email := "x@y.com", roles := ["ROLE_ADMIN", "ROLE_MEDICO"], id := some 3 } rfl).2.2.2
      (by decide)).2.2.2 "ROLE_ADMIN" (by decide),
    ((role_flags_unprefixed
      { sampleSession with
        user := some { email := "x@y.com", roles := ["ADMIN"], id := some 3 } }
      { email := "x@y.com", roles := ["ADMIN"], id := some 3 } rfl).2.1.1).mpr (by decide),
    (role_flags_unprefixed
      { sampleSession with
        user := some { email := "x@y.com", roles := ["ADMIN"], id := some 3 } }
      { email := "x@y.com", roles := ["ADMIN"], id := some 3 } rfl).1.2.1⟩

/-! ## Redirect after login -/

/-- C28: for a role list holding at least one of `ROLE_ADMIN`, `ROLE_MEDICO`
and `ROLE_PACIENTE`, the path `handleSubmit` navigates to after a login whose
token carries these roles is the path `getDashboardLink` returns for a user
with the same roles; both give the admin dashboard when `ROLE_ADMIN` is held,
else the doctor dashboard when `ROLE_MEDICO` is held, else the patient
dashboard. -/
theorem handleSubmit_matches_getDashboardLink (jwtDecode : String → Option Claims)
    (t : String) (p : Claims) (roles : List String) (fromPath email : String)
    (id : Option Int) (ht : t ≠ "") (hd : jwtDecode t = some p)
    (hr : p.roles = some roles)
    (hone : "ROLE_ADMIN" ∈ roles ∨ "ROLE_MEDICO" ∈ roles ∨ "ROLE_PACIENTE" ∈ roles) :
    handleSubmit jwtDecode (.ok (some t)) fromPath =
        .navigate (getDashboardLink (some { email := email, roles := roles, id := id })) ∧
      ("ROLE_ADMIN" ∈ roles →
        getDashboardLink (some { email := email, roles := roles, id := id }) =
          "/admin/dashboard") ∧
      ("ROLE_ADMIN" ∉ roles → "ROLE_MEDICO" ∈ roles →
        getDashboardLink (some { email := email, roles := roles, id := id }) =
          "/medico/dashboard") ∧
      ("ROLE_ADMIN" ∉ roles → "ROLE_MEDICO" ∉ roles →
        getDashboardLink (some { email := email, roles := roles, id := id }) =
          "/paciente/dashboard") := by
  have htr : truthyString (some t) = true := (truthyString_some t).mpr ht
  refine ⟨?_, ?_, ?_, ?_⟩
  · by_cases ha : "ROLE_ADMIN" ∈ roles
    · simp [handleSubmit, getDashboardLink, userHasRole, htr, hd, hr, ha]
    · by_cases hm : "ROLE_MEDICO" ∈ roles
      · simp [handleSubmit, getDashboardLink, userHasRole, htr, hd, hr, ha, hm]
      · have hp : "ROLE_PACIENTE" ∈ roles := by
          rcases hone with h | h | h
          · exact absurd h ha
          · exact absurd h hm
          · exact h
        simp [handleSubmit, getDashboardLink, userHasRole, htr, hd, hr, ha, hm, hp]
  · intro ha
    simp [getDashboardLink, userHasRole, ha]
  · intro ha hm
    simp [getDashboardLink, userHasRole, ha, hm]
  · intro ha hm
    have hp : "ROLE_PACIENTE" ∈ roles := by
      rcases hone with h | h | h
      · exact absurd h ha
      · exact absurd h hm
      · exact h
    simp [getDashboardLink, userHasRole, ha, hm, hp]

/-- Witness of C28: the token `two`, whose roles are `ROLE_PACIENTE` and
`ROLE_MEDICO`, sends the user to the doctor dashboard, as the navbar link
does. -/
theorem handleSubmit_matches_getDashboardLink_witness :
    handleSubmit sampleDecodeTwoRoles (.ok (some "two")) "/perfil" =
        .navigate (getDashboardLink
          (some { email := "a@b.com", roles := ["ROLE_PACIENTE", "ROLE_MEDICO"],
                  id := some 2 })) ∧
      getDashboardLink
          (some { email := "a@b.com", roles := ["ROLE_PACIENTE", "ROLE_MEDICO"],
                  id := some 2 }) =
        "/medico/dashboard" :=
  ⟨(handleSubmit_matches_getDashboardLink sampleDecodeTwoRoles "two"
      { sub := some "a@b.com", roles := some ["ROLE_PACIENTE", "ROLE_MEDICO"],
        userId := some 2, exp := some 2000 }
      ["ROLE_PACIENTE", "ROLE_MEDICO"] "/perfil" "a@b.com" (some 2) (by decide) (by decide)
      rfl (by decide)).1,
    (handleSubmit_matches_getDashboardLink sampleDecodeTwoRoles "two"
      { sub := some "a@b.com", roles := some ["ROLE_PACIENTE", "ROLE_MEDICO"],
        userId := some 2, exp := some 2000 }
      ["ROLE_PACIENTE", "ROLE_MEDICO"] "/perfil" "a@b.com" (some 2) (by decide) (by decide)
      rfl (by decide)).2.2.1 (by decide) (by decide)⟩

/-! ## Pagination of the admin lists -/

/-- From page `1` on, the slice of a page is five items taken after dropping
the pages before it. -/
theorem paginated_succ {α : Type} (l : List α) (q : Nat) :
    paginated l (q + 1) usersPerPage = (l.drop (q * 5)).take 5 := by
  have hs : (((q + 1 : Nat) : Int) - 1) * ((5 : Nat) : Int) = ((q * 5 : Nat) : Int) := by
    push_cast
    ring
  have he : ((q + 1 : Nat) : Int) * ((5 : Nat) : Int) = ((q * 5 + 5 : Nat) : Int) := by
    push_cast
    ring
  have hneg1 : ¬ (((q * 5 : Nat) : Int) < 0) := by omega
  have hneg2 : ¬ (((q * 5 + 5 : Nat) : Int) < 0) := by omega
  have hk : (min ((q * 5 : Nat) : Int) (l.length : Int)).toNat = min (q * 5) l.length := by
    omega
  have hf : (min ((q * 5 + 5 : Nat) : Int) (l.length : Int) -
      min ((q * 5 : Nat) : Int) (l.length : Int)).toNat =
      min (q * 5 + 5) l.length - min (q * 5) l.length := by
    omega
  unfold paginated jsSlice usersPerPage
  simp only [hs, he, hneg1, hneg2, if_false, hk, hf]
  by_cases h : q * 5 ≤ l.length
  · rw [Nat.min_eq_left h, List.take_eq_take]
    simp only [List.length_drop]
    omega
  · have h1 : l.drop (q * 5) = [] := List.drop_eq_nil_of_le (by omega)
    have h2 : l.drop (min (q * 5) l.length) = [] := List.drop_eq_nil_of_le (by omega)
    rw [h1, h2]
    simp

theorem flatten_pages {α : Type} (n : Nat) (l : List α) (h : l.length ≤ n * 5) :
    ((List.range n).map (fun i => (l.drop (i * 5)).take 5)).flatten = l := by
  induction n generalizing l with
  | zero =>
    have hl : l = [] := List.eq_nil_of_length_eq_zero (by omega)
    simp [hl]
  | succ n ih =>
    have hrest : (List.range n).map ((fun i => (l.drop (i * 5)).take 5) ∘ Nat.succ) =
        (List.range n).map (fun i => ((l.drop 5).drop (i * 5)).take 5) := by
      apply List.map_congr_left
      intro i _
      simp only [Function.comp, List.drop_drop]
      congr 2
      omega
    rw [List.range_succ_eq_map, List.map_cons, List.map_map, List.flatten_cons, hrest,
      ih (l.drop 5) (by simp only [List.length_drop]; omega)]
    simp

/-- C29: with page size `5` and `totalPages = ceil(|L| / 5)`, every page `p`
from `1` to `totalPages`, computed as `L.slice((p - 1) * 5, p * 5)`, holds
between one and five items, and the pages put one after the other in order
give back `L`. -/
theorem pagination_partitions {α : Type} (L : List α) :
    (∀ p, 1 ≤ p → p ≤ totalPages L.length usersPerPage →
        1 ≤ (paginated L p usersPerPage).length ∧
          (paginated L p usersPerPage).length ≤ 5) ∧
      ((List.range (totalPages L.length usersPerPage)).map
        (fun i => paginated L (i + 1) usersPerPage)).flatten = L := by
  constructor
  · intro p h1 hp
    obtain ⟨q, rfl⟩ : ∃ q, p = q + 1 := ⟨p - 1, by omega⟩
    rw [paginated_succ]
    simp only [totalPages, usersPerPage] at hp
    simp only [List.length_take, List.length_drop]
    omega
  · have hfun : (fun i => paginated L (i + 1) usersPerPage) =
        (fun i => (L.drop (i * 5)).take 5) := by
      funext i
      exact paginated_succ L i
    rw [hfun]
    apply flatten_pages
    simp only [totalPages, usersPerPage]
    omega

/-- Witness of C29: six rows make two pages, the second one holding one
row. -/
theorem pagination_partitions_witness :
    totalPages sampleUsers.length usersPerPage = 2 ∧
      (1 ≤ (paginated sampleUsers 2 usersPerPage).length ∧
        (paginated sampleUsers 2 usersPerPage).length ≤ 5) ∧
      paginated sampleUsers 2 usersPerPage = [⟨6, "Fabio", "fabio@x.com"⟩] :=
  ⟨by decide,
    (pagination_partitions sampleUsers).1 2 (by decide) (by decide),
    by decide⟩

/-- C30: `handleDelete` and a change of the search term leave `currentPage`
as it is, and only a successful fetch sets it to `1`.  With six users fetched,
page `2` chosen and the sixth user deleted, the current page is `2` while
`totalPages` is `1`, and the page shown is empty although five users remain in
the filtered list. -/
theorem currentPage_not_reset :
    (∀ deleted st, (handleDelete deleted st).currentPage = st.currentPage) ∧
      (∀ term st, (changeSearchTerm term st).currentPage = st.currentPage) ∧
      (∀ data st, (fetchUsers (some data) st).currentPage = 1) ∧
      sampleDeleted =
        handleDelete true (openConfirm 6 (onPageChange 2
          (fetchUsers (some sampleUsers) initialAdminUsersPage))) ∧
      sampleDeleted.currentPage = 2 ∧
      sampleDeleted.totalPages = 1 ∧
      sampleDeleted.totalPages < sampleDeleted.currentPage ∧
      sampleDeleted.paginatedUsers = [] ∧
      sampleDeleted.filteredUsers.length = 5 := by
  refine ⟨?_, fun _ _ => rfl, fun _ _ => rfl, rfl, by decide, by decide, by decide,
    by decide, by decide⟩
  intro deleted st
  cases deleted <;> rfl

end MedPlus
